import Mathlib

/-!
Shallow embedding of the trivy-scanner program (trivy-scanner.py) and proofs
about its specification claims.

Conventions of the embedding:
* Python strings are Lean `String`s; the relevant Python string operations
  (`.lower()`, `.upper()`, `.strip()`, `.capitalize()`, `.startswith`,
  substring containment `x in s`) are re-implemented on the underlying
  character lists, restricted to the ASCII behaviour the program relies on.
* A JSON field that may be absent (or JSON `null`) is an `Option`; Python's
  `d.get(k) or ""` / `d.get(k, "")` becomes `Option.getD _ ""`.
* JSON scalar values carried around by the program (severities, package
  names, line numbers, ...) are modelled as strings; none of the claims
  depends on their numeric structure.
* External processes are modelled by oracles: a pure function supplying, for
  each successive invocation, the exit code, the stderr text, and the effect
  on the scanner cache directory.  An external invocation may create the
  database artifacts in the cache (that is what a download does) but never
  removes them; removal happens only through the program's own repair path.
-/

/- ------------------------------------------------------------------ -/
/- Python string primitives                                            -/
/- ------------------------------------------------------------------ -/

/-- Is the first list a prefix of the second?  Used to model Python's
`str.startswith` and as the building block of substring containment. -/
def charsStart : List Char → List Char → Bool
  | [], _ => true
  | _ :: _, [] => false
  | a :: ns, b :: hs => a == b && charsStart ns hs

/-- Does the first list occur as a contiguous sublist of the second?
Models Python's `needle in haystack` on strings. -/
def charsHold (n : List Char) : List Char → Bool
  | [] => n.isEmpty
  | b :: hs => charsStart n (b :: hs) || charsHold n hs

/-- Python `needle in hay` for strings. -/
def strIn (needle hay : String) : Bool := charsHold needle.data hay.data

/-- Python `s.lower()` (ASCII). -/
def lowerStr (s : String) : String := String.mk (s.data.map Char.toLower)

/-- Python `s.upper()` (ASCII). -/
def upperStr (s : String) : String := String.mk (s.data.map Char.toUpper)

/-- Python `s.startswith(p)`. -/
def startsStr (s p : String) : Bool := charsStart p.data s.data

/-- The characters Python's `str.strip()` removes (ASCII whitespace). -/
def pySpace (c : Char) : Bool :=
  c == ' ' || c == '\t' || c == '\n' || c == '\r' || c == '\x0b' || c == '\x0c'

/-- Strip ASCII whitespace from both ends of a character list. -/
def stripChars (l : List Char) : List Char :=
  ((l.dropWhile pySpace).reverse.dropWhile pySpace).reverse

/-- Python `s.strip()`. -/
def stripStr (s : String) : String := String.mk (stripChars s.data)

/-- Python `s.capitalize()`: first character upper-cased, the rest
lower-cased. -/
def pyCapitalize (s : String) : String :=
  match s.data with
  | [] => ""
  | c :: cs => String.mk (c.toUpper :: cs.map Char.toLower)

/-- Python `s or d` for strings: the empty string is falsy. -/
def orElseStr (s d : String) : String := if s = "" then d else s

/-- Python `(opt or "UNKNOWN")` for an optional string field: both an absent
field and an empty string fall back to `"UNKNOWN"`. -/
def orUnknown : Option String → String
  | none => "UNKNOWN"
  | some s => if s = "" then "UNKNOWN" else s

/- ------------------------------------------------------------------ -/
/- SEVERITY_LEVELS (source lines 22-28)                                -/
/- ------------------------------------------------------------------ -/

/-- The `SEVERITY_LEVELS` dictionary: threshold rank to included severity
labels; `none` for a key outside 1..5. -/
def SEVERITY_LEVELS (k : Int) : Option (List String) :=
  if k = 1 then some ["UNKNOWN", "LOW", "MEDIUM", "HIGH", "CRITICAL"]
  else if k = 2 then some ["LOW", "MEDIUM", "HIGH", "CRITICAL"]
  else if k = 3 then some ["MEDIUM", "HIGH", "CRITICAL"]
  else if k = 4 then some ["HIGH", "CRITICAL"]
  else if k = 5 then some ["CRITICAL"]
  else none

/- ------------------------------------------------------------------ -/
/- Raw scan output data model (the JSON shape the scanner engine emits) -/
/- ------------------------------------------------------------------ -/

/-- One vulnerability finding as read by the program.  Exactly the fields the
source accesses; each is optional because the JSON key may be absent. -/
structure Vuln where
  VulnerabilityID : Option String
  PkgName : Option String
  PkgPath : Option String
  InstalledVersion : Option String
  FixedVersion : Option String
  Severity : Option String
  Title : Option String
  Description : Option String
  CVSS : Option String
  SeveritySource : Option String
  PrimaryURL : Option String
deriving DecidableEq

/-- One secret finding as read by the program. -/
structure Secret where
  RuleID : Option String
  Category : Option String
  Title : Option String
  Target : Option String
  StartLine : Option String
  EndLine : Option String
  Match : Option String
  Severity : Option String
deriving DecidableEq

/-- One result group (`Results[i]`); the JSON key `Type` is spelled `Typ`
because `Type` is a Lean keyword. -/
structure ResultData where
  Target : Option String
  Class : Option String
  Typ : Option String
  Vulnerabilities : Option (List Vuln)
  Secrets : Option (List Secret)
deriving DecidableEq

/-- The top-level JSON object produced by a scan. -/
structure ScanData where
  Results : Option (List ResultData)
  Secrets : Option (List Secret)
deriving DecidableEq

/- ------------------------------------------------------------------ -/
/- classify_component_type (source lines 701-743)                      -/
/- ------------------------------------------------------------------ -/

/-- The trailing non-package branches of `classify_component_type`
(source lines 737-743), reached when neither the secret check nor the
vulnerability branches returned. -/
def classify_residual (target class_type type_name : String) : String :=
  if class_type == "config" || strIn "config" (lowerStr target) then "Configuration"
  else if class_type == "binary" then "Binary"
  else if type_name != "" then type_name ++ "-component"
  else "Unknown-component"

/-- `classify_component_type` translated from the source.  The `vulnerability`
argument is `some v` when a (truthy) vulnerability dict is passed. -/
def classify_component_type (result_data : ResultData) (vulnerability : Option Vuln)
    (secret : Option Secret) : String :=
  let target := result_data.Target.getD ""
  let class_type := result_data.Class.getD ""
  let type_name := result_data.Typ.getD ""
  if secret.isSome || class_type == "secret" then "Secret"
  else
    match vulnerability with
    | some v =>
      let pkg_name := lowerStr (v.PkgName.getD "")
      let pkg_path := lowerStr (v.PkgPath.getD "")
      if (class_type == "os-pkgs" || class_type == "os")
          || (type_name == "debian" || type_name == "ubuntu" || type_name == "alpine"
              || type_name == "centos" || type_name == "rhel" || type_name == "amazon") then
        pyCapitalize type_name ++ "-package"
      else if class_type == "lang-pkgs" then
        if type_name == "gobinary" || strIn "go.mod" pkg_path || strIn "/go/" pkg_path then
          "Go-package"
        else if type_name == "python-pkg" || strIn ".py" pkg_name || strIn "/python/" pkg_path then
          "Python-package"
        else if type_name == "node-pkg" || strIn "node_modules" pkg_path || strIn "/npm/" pkg_path then
          "NodeJS-package"
        else if type_name == "java" || strIn ".jar" pkg_name || strIn "/java/" pkg_path then
          "Java-package"
        else if type_name == "php" || strIn ".php" pkg_name then "PHP-package"
        else if type_name == "ruby" || strIn ".gem" pkg_name then "Ruby-package"
        else if type_name == "rust" || strIn ".crate" pkg_name then "Rust-package"
        else if type_name == "dotnet" || strIn ".dll" pkg_name then "DotNet-package"
        else if type_name == "conda" then "Conda-package"
        else if type_name != "" then type_name ++ "-package"
        else "Unknown-language-package"
      else classify_residual target class_type type_name
    | none => classify_residual target class_type type_name

/- ------------------------------------------------------------------ -/
/- Ordered dictionaries (Python dict / defaultdict discipline)         -/
/- ------------------------------------------------------------------ -/

/-- Lookup in an insertion-ordered association list, with a default; models
reading a Python dict entry (`defaultdict` supplies the default). -/
def lookup_list {α : Type} (d : α) : List (String × α) → String → α
  | [], _ => d
  | (k, v) :: t, x => if k = x then v else lookup_list d t x

/-- Update-or-insert in an insertion-ordered association list: apply `f` to
the value bound to `k` (or to the default `d`, appending a fresh binding at
the end).  This is exactly the Python `setdefault`-then-mutate discipline. -/
def alist_upd {α : Type} (l : List (String × α)) (k : String) (f : α → α) (d : α) :
    List (String × α) :=
  match l with
  | [] => [(k, f d)]
  | (k', v) :: t => if k' = k then (k', f v) :: t else (k', v) :: alist_upd t k f d

/-- A normalized finding record, as built by the source: an ordered list of
(key, value) string pairs. -/
abbrev Entry := List (String × String)

/-- `component_structure`: ComponentType → severity → ordered findings. -/
abbrev Bucket := List (String × List (String × List Entry))

/-- `statistics`: ComponentType → severity → count. -/
abbrev Stats := List (String × List (String × Nat))

/-- `component_structure.setdefault(ct, {})`, then `.setdefault(sev, [])`,
then `.append(e)`. -/
def bucket_add (b : Bucket) (c s : String) (e : Entry) : Bucket :=
  alist_upd b c (fun m => alist_upd m s (fun es => es ++ [e]) []) []

/-- `statistics[ct][sev] += n` on the nested `defaultdict`. -/
def stats_add (st : Stats) (c s : String) (n : Nat) : Stats :=
  alist_upd st c (fun m => alist_upd m s (fun v => v + n) 0) []

/-- Read a bucket cell (empty list when the keys are absent). -/
def lookup_bucket (b : Bucket) (c s : String) : List Entry :=
  lookup_list [] (lookup_list [] b c) s

/-- Read a statistics cell (0 when the keys are absent). -/
def lookup_stats (st : Stats) (c s : String) : Nat :=
  lookup_list 0 (lookup_list [] st c) s

/- ------------------------------------------------------------------ -/
/- analyze_and_format_vulnerabilities (source lines 745-825)           -/
/- ------------------------------------------------------------------ -/

/-- An optional descriptive field: added (with a lower-cased key) only when
present and truthy (non-empty). -/
def opt_field (key : String) (v : Option String) : List (String × String) :=
  match v with
  | some x => if x = "" then [] else [(lowerStr key, x)]
  | none => []

/-- The vulnerability entry dict built by the source (lines 763-776). -/
def vuln_entry (result_data : ResultData) (v : Vuln) : Entry :=
  [("vuln_id", v.VulnerabilityID.getD ""),
   ("installed_vers", v.InstalledVersion.getD ""),
   ("fixed", v.FixedVersion.getD ""),
   ("library", v.PkgName.getD ""),
   ("type_detail", result_data.Typ.getD ""),
   ("class_detail", result_data.Class.getD ""),
   ("target", result_data.Target.getD ""),
   ("type", "vulnerability")]
  ++ opt_field "Title" v.Title
  ++ opt_field "Description" v.Description
  ++ opt_field "CVSS" v.CVSS
  ++ opt_field "SeveritySource" v.SeveritySource
  ++ opt_field "PrimaryURL" v.PrimaryURL

/-- The secret entry dict built for a result group's secret (lines 790-801). -/
def secret_entry (result_data : ResultData) (sec : Secret) : Entry :=
  [("secret_id", sec.RuleID.getD ""),
   ("category", sec.Category.getD ""),
   ("title", sec.Title.getD ""),
   ("target", result_data.Target.getD ""),
   ("start_line", sec.StartLine.getD ""),
   ("end_line", sec.EndLine.getD ""),
   ("match", sec.Match.getD ""),
   ("type_detail", result_data.Typ.getD ""),
   ("class_detail", result_data.Class.getD ""),
   ("type", "secret")]

/-- The secret entry dict built for a top-level secret (lines 813-822). -/
def top_secret_entry (sec : Secret) : Entry :=
  [("secret_id", sec.RuleID.getD ""),
   ("category", sec.Category.getD ""),
   ("title", sec.Title.getD ""),
   ("target", sec.Target.getD ""),
   ("start_line", sec.StartLine.getD ""),
   ("end_line", sec.EndLine.getD ""),
   ("match", sec.Match.getD ""),
   ("type", "secret")]

/-- Processing of one vulnerability of one result group (lines 754-779). -/
def process_vuln (included : List String) (result_data : ResultData)
    (acc : Bucket × Stats) (v : Vuln) : Bucket × Stats :=
  let severity := upperStr (orUnknown v.Severity)
  if severity ∈ included then
    let ct := classify_component_type result_data (some v) none
    (bucket_add acc.1 ct severity (vuln_entry result_data v),
     stats_add acc.2 ct severity 1)
  else acc

/-- Processing of one secret of one result group (lines 781-804). -/
def process_secret (included : List String) (result_data : ResultData)
    (acc : Bucket × Stats) (sec : Secret) : Bucket × Stats :=
  let severity := upperStr (orUnknown sec.Severity)
  if severity ∈ included then
    (bucket_add acc.1 "Secret" severity (secret_entry result_data sec),
     stats_add acc.2 "Secret" severity 1)
  else acc

/-- Processing of one top-level secret (lines 806-823). -/
def process_top_secret (included : List String) (acc : Bucket × Stats)
    (sec : Secret) : Bucket × Stats :=
  let severity := upperStr (orUnknown sec.Severity)
  if severity ∈ included then
    (bucket_add acc.1 "Secret" severity (top_secret_entry sec),
     stats_add acc.2 "Secret" severity 1)
  else acc

/-- Processing of one result group: its vulnerability list then its secret
list (`result_data.get("Vulnerabilities") or []`, likewise for secrets). -/
def process_result (included : List String) (acc : Bucket × Stats)
    (result_data : ResultData) : Bucket × Stats :=
  let acc1 := (result_data.Vulnerabilities.getD []).foldl
    (process_vuln included result_data) acc
  (result_data.Secrets.getD []).foldl (process_secret included result_data) acc1

/-- `analyze_and_format_vulnerabilities(data, severity_level)`; the `data`
argument is `none` when the Python value is falsy (`if not data`). -/
def analyze_and_format_vulnerabilities (data : Option ScanData) (severity_level : Int) :
    Bucket × Stats :=
  let included := (SEVERITY_LEVELS severity_level).getD ["HIGH", "CRITICAL"]
  match data with
  | none => ([], [])
  | some d =>
    let acc := (d.Results.getD []).foldl (process_result included) ([], [])
    (d.Secrets.getD []).foldl (process_top_secret included) acc

/- ------------------------------------------------------------------ -/
/- _safe_int and parse_input_file (source lines 205-209, 318-351)      -/
/- ------------------------------------------------------------------ -/

/-- After an initial digit: the remaining characters of a Python integer
literal body, allowing single underscores strictly between digits. -/
def digitsUnd : List Char → Bool
  | [] => true
  | '_' :: [] => false
  | '_' :: c :: t => c.isDigit && digitsUnd t
  | c :: t => c.isDigit && digitsUnd t

/-- A valid body for Python `int(...)`: at least one digit, underscores only
between digits. -/
def validIntBody : List Char → Bool
  | [] => false
  | c :: t => c.isDigit && digitsUnd t

/-- Decimal value of a digit list (underscores already removed). -/
def digitsVal (l : List Char) : Nat :=
  l.foldl (fun acc c => acc * 10 + (c.toNat - '0'.toNat)) 0

/-- Python `int(s)` on an already-stripped ASCII string: optional sign, then
digits possibly separated by single underscores; `none` when `int` raises. -/
def pyIntOfChars (l : List Char) : Option Int :=
  match l with
  | '+' :: t =>
    if validIntBody t then some (Int.ofNat (digitsVal (t.filter (fun c => c != '_')))) else none
  | '-' :: t =>
    if validIntBody t then some (-(Int.ofNat (digitsVal (t.filter (fun c => c != '_'))))) else none
  | _ =>
    if validIntBody l then some (Int.ofNat (digitsVal (l.filter (fun c => c != '_')))) else none

/-- `_safe_int(v, default)`: `int(str(v).strip())`, falling back to the
default when `int` raises. -/
def safe_int (v : String) (default : Int) : Int :=
  match pyIntOfChars (stripChars v.data) with
  | some n => n
  | none => default

/-- Python `line.split("=", 1)[1]`: everything after the first `=`. -/
def after_first_eq : List Char → List Char
  | [] => []
  | c :: t => if c = '=' then t else after_first_eq t

/-- `line.split("=", 1)[1]` as a string operation. -/
def split_eq_tail (s : String) : String := String.mk (after_first_eq s.data)

/-- The body of `parse_input_file`'s per-line loop (source lines 332-342),
acting on the accumulated (severity_level, items) state. -/
def parse_step (acc : Int × List String) (raw : String) : Int × List String :=
  let line := stripStr raw
  if line == "" || startsStr line "#" then acc
  else if startsStr (lowerStr line) "severity=" then
    let sev := safe_int (split_eq_tail line) 4
    (if 1 ≤ sev ∧ sev ≤ 5 then sev else 4, acc.2)
  else (acc.1, acc.2 ++ [line])

/-- `parse_input_file` on the file's lines: severity level (default 4) and
the list of scan targets. -/
def parse_input_file (lines : List String) : Int × List String :=
  lines.foldl parse_step (4, [])

/- ------------------------------------------------------------------ -/
/- _unknown_flag and the failure heuristics (source lines 217-252)     -/
/- ------------------------------------------------------------------ -/

/-- `_unknown_flag(stderr_text, flag)`. -/
def unknown_flag (stderr_text flag : String) : Bool :=
  let s := lowerStr stderr_text
  strIn "unknown flag" s && strIn (lowerStr flag) s

/-- `_looks_like_permission_issue(stderr_text)`. -/
def looks_like_permission_issue (stderr_text : String) : Bool :=
  let s := lowerStr stderr_text
  strIn "permission denied" s
    || strIn "cannot connect to the docker daemon" s
    || strIn "dial unix /var/run/docker.sock" s
    || strIn "got permission denied" s
    || strIn "operation not permitted" s
    || strIn "access denied" s

/-- `_looks_like_db_issue(stderr_text)`. -/
def looks_like_db_issue (stderr_text : String) : Bool :=
  let s := lowerStr stderr_text
  strIn "db corrupted" s
    || strIn "vulnerability db" s
    || strIn "error in vulnerability db initialize" s
    || strIn "failed to download vulnerability db" s
    || strIn "oci artifact error" s
    || strIn "trivy.db" s
    || strIn "metadata.json" s
    || strIn "unable to open database file" s
    || strIn "database initialize" s
    || strIn "db error" s

/-- `_looks_like_missing_db_path(stderr_text)`. -/
def looks_like_missing_db_path (stderr_text : String) : Bool :=
  let s := lowerStr stderr_text
  strIn "no such file or directory" s && (strIn "trivy.db" s || strIn "/db/" s)

/- ------------------------------------------------------------------ -/
/- _run_proc (source lines 355-383)                                    -/
/- ------------------------------------------------------------------ -/

/-- Behaviour of the spawned external process: it either completes with an
exit code and output streams, or it is still running when the timeout
expires. -/
inductive ProcBehavior
  | completes (rc : Int) (out err : String)
  | timedOut
deriving DecidableEq

/-- `_run_proc`: result triple (exit code, stdout, stderr) plus a ghost flag
recording whether the process was forcibly killed.  stdout is captured only
when `stdout_pipe` is set; stderr is always piped in the source (both arms of
its conditional are `PIPE`), so it is always captured.  On timeout the
process is killed and the sentinel `(124, "", "timeout")` is returned. -/
def run_proc (b : ProcBehavior) (stdout_pipe stderr_pipe : Bool) :
    (Int × String × String) × Bool :=
  match b with
  | ProcBehavior.timedOut => ((124, "", "timeout"), true)
  | ProcBehavior.completes rc out err =>
    ((rc, (if stdout_pipe then out else ""), err), false)

/- ------------------------------------------------------------------ -/
/- _trivy_scan_once (source lines 548-638)                             -/
/- ------------------------------------------------------------------ -/

/-- The five optional capability flags of one scan invocation. -/
structure Flags where
  allow_no_progress : Bool
  allow_quiet : Bool
  allow_timeout_flag : Bool
  allow_skip_db_update : Bool
  allow_skip_java_db_update : Bool
deriving DecidableEq

/-- Number of enabled flags. -/
def Flags.count (f : Flags) : Nat :=
  (if f.allow_no_progress then 1 else 0) + (if f.allow_quiet then 1 else 0)
    + (if f.allow_timeout_flag then 1 else 0) + (if f.allow_skip_db_update then 1 else 0)
    + (if f.allow_skip_java_db_update then 1 else 0)

theorem Flags.count_le_five (f : Flags) : f.count ≤ 5 := by
  rcases f with ⟨a, b, c, d, e⟩
  cases a <;> cases b <;> cases c <;> cases d <;> cases e <;> decide

/-- Flag-set inclusion. -/
def Flags.Sub (g f : Flags) : Prop :=
  (g.allow_no_progress = true → f.allow_no_progress = true)
    ∧ (g.allow_quiet = true → f.allow_quiet = true)
    ∧ (g.allow_timeout_flag = true → f.allow_timeout_flag = true)
    ∧ (g.allow_skip_db_update = true → f.allow_skip_db_update = true)
    ∧ (g.allow_skip_java_db_update = true → f.allow_skip_java_db_update = true)

theorem Flags.Sub.refl (f : Flags) : Flags.Sub f f :=
  ⟨fun h => h, fun h => h, fun h => h, fun h => h, fun h => h⟩

theorem Flags.Sub.trans {a b c : Flags} (h1 : Flags.Sub a b) (h2 : Flags.Sub b c) :
    Flags.Sub a c :=
  ⟨fun h => h2.1 (h1.1 h),
   fun h => h2.2.1 (h1.2.1 h),
   fun h => h2.2.2.1 (h1.2.2.1 h),
   fun h => h2.2.2.2.1 (h1.2.2.2.1 h),
   fun h => h2.2.2.2.2 (h1.2.2.2.2 h)⟩

/-- Disabling the quiet flag etc.: the five successor flag sets used by the
fallback recursion. -/
def Flags.dropNoProgress (f : Flags) : Flags :=
  ⟨false, f.allow_quiet, f.allow_timeout_flag, f.allow_skip_db_update,
   f.allow_skip_java_db_update⟩

def Flags.dropQuiet (f : Flags) : Flags :=
  ⟨f.allow_no_progress, false, f.allow_timeout_flag, f.allow_skip_db_update,
   f.allow_skip_java_db_update⟩

def Flags.dropTimeout (f : Flags) : Flags :=
  ⟨f.allow_no_progress, f.allow_quiet, false, f.allow_skip_db_update,
   f.allow_skip_java_db_update⟩

def Flags.dropSkipDb (f : Flags) : Flags :=
  ⟨f.allow_no_progress, f.allow_quiet, f.allow_timeout_flag, false,
   f.allow_skip_java_db_update⟩

def Flags.dropSkipJavaDb (f : Flags) : Flags :=
  ⟨f.allow_no_progress, f.allow_quiet, f.allow_timeout_flag, f.allow_skip_db_update,
   false⟩

theorem Flags.count_dropNoProgress (f : Flags) (h : f.allow_no_progress = true) :
    f.dropNoProgress.count + 1 = f.count := by
  rcases f with ⟨a, b, c, d, e⟩
  simp only at h
  subst h
  cases b <;> cases c <;> cases d <;> cases e <;> decide

theorem Flags.count_dropQuiet (f : Flags) (h : f.allow_quiet = true) :
    f.dropQuiet.count + 1 = f.count := by
  rcases f with ⟨a, b, c, d, e⟩
  simp only at h
  subst h
  cases a <;> cases c <;> cases d <;> cases e <;> decide

theorem Flags.count_dropTimeout (f : Flags) (h : f.allow_timeout_flag = true) :
    f.dropTimeout.count + 1 = f.count := by
  rcases f with ⟨a, b, c, d, e⟩
  simp only at h
  subst h
  cases a <;> cases b <;> cases d <;> cases e <;> decide

theorem Flags.count_dropSkipDb (f : Flags) (h : f.allow_skip_db_update = true) :
    f.dropSkipDb.count + 1 = f.count := by
  rcases f with ⟨a, b, c, d, e⟩
  simp only at h
  subst h
  cases a <;> cases b <;> cases c <;> cases e <;> decide

theorem Flags.count_dropSkipJavaDb (f : Flags) (h : f.allow_skip_java_db_update = true) :
    f.dropSkipJavaDb.count + 1 = f.count := by
  rcases f with ⟨a, b, c, d, e⟩
  simp only at h
  subst h
  cases a <;> cases b <;> cases c <;> cases d <;> decide

/-- The English default failure message `_t("trivy_scan_failed_default")`. -/
def trivy_scan_failed_msg : String := "Trivy scan failed"

/-- `_trivy_scan_once`, with a ghost trace: given an environment `env` that
answers each invocation (exit code, stderr) as a function of the enabled
flag set, and the private temporary output path `tmp_path`, returns the
source function's result together with the list of flag sets attempted, in
order.  When the invocation fails and stderr reports one specific optional
flag as unknown, exactly that flag is disabled and the invocation retried
with all other flags unchanged (source lines 592-631). -/
def trivy_scan_once (env : Flags → Int × String) (tmp_path : String) (f : Flags) :
    (Int × String) × List Flags :=
  let rc := (env f).1
  let err := (env f).2
  if rc == 0 then ((0, tmp_path), [f])
  else if h1 : f.allow_no_progress && unknown_flag err "--no-progress" then
    let r := trivy_scan_once env tmp_path f.dropNoProgress
    (r.1, f :: r.2)
  else if h2 : f.allow_quiet && unknown_flag err "--quiet" then
    let r := trivy_scan_once env tmp_path f.dropQuiet
    (r.1, f :: r.2)
  else if h3 : f.allow_timeout_flag && unknown_flag err "--timeout" then
    let r := trivy_scan_once env tmp_path f.dropTimeout
    (r.1, f :: r.2)
  else if h4 : f.allow_skip_db_update && unknown_flag err "--skip-db-update" then
    let r := trivy_scan_once env tmp_path f.dropSkipDb
    (r.1, f :: r.2)
  else if h5 : f.allow_skip_java_db_update && unknown_flag err "--skip-java-db-update" then
    let r := trivy_scan_once env tmp_path f.dropSkipJavaDb
    (r.1, f :: r.2)
  else ((rc, orElseStr (stripStr err) trivy_scan_failed_msg), [f])
termination_by f.count
decreasing_by
  · have := Flags.count_dropNoProgress f (Bool.and_eq_true _ _ ▸ h1).1
    omega
  · have := Flags.count_dropQuiet f (Bool.and_eq_true _ _ ▸ h2).1
    omega
  · have := Flags.count_dropTimeout f (Bool.and_eq_true _ _ ▸ h3).1
    omega
  · have := Flags.count_dropSkipDb f (Bool.and_eq_true _ _ ▸ h4).1
    omega
  · have := Flags.count_dropSkipJavaDb f (Bool.and_eq_true _ _ ▸ h5).1
    omega

/- ------------------------------------------------------------------ -/
/- Database lifecycle: world model and oracles                         -/
/- ------------------------------------------------------------------ -/

/-- The outcome of one external invocation as decided by the oracle: exit
code, stderr text, and whether the invocation leaves the vulnerability /
Java database artifact verified on disk (existence plus minimum-size check
passing).  An invocation can create artifacts but never removes them. -/
structure ProcOut where
  rc : Int
  err : String
  makes_vuln_db : Bool
  makes_java_db : Bool

/-- Observable world state: whether `_cache_has_vuln_db()` /
`_cache_has_java_db()` hold, how many external processes have been spawned
(`clock`), and how many times the cross-process file lock was taken. -/
structure World where
  has_vuln_db : Bool
  has_java_db : Bool
  clock : Nat
  lock_acq : Nat
deriving DecidableEq

/-- One `_run_proc` call under an oracle: the oracle's answer for the current
clock tick, with the world advanced accordingly. -/
def run_proc_o (o : Nat → ProcOut) (w : World) : (Int × String) × World :=
  (((o w.clock).rc, (o w.clock).err),
   ⟨w.has_vuln_db || (o w.clock).makes_vuln_db,
    w.has_java_db || (o w.clock).makes_java_db,
    w.clock + 1, w.lock_acq⟩)

/-- `_cache_has_vuln_db()`: the file exists and its size exceeds 1024. -/
def cache_has_vuln_db (w : World) : Bool := w.has_vuln_db

/-- `_cache_has_java_db()`. -/
def cache_has_java_db (w : World) : Bool := w.has_java_db

/-- The `_db_ready` / `_java_db_ready` flags of the scanner object. -/
structure DBState where
  db_ready : Bool
  java_db_ready : Bool
deriving DecidableEq

/-- The English default `_t("trivy_db_prepare_failed_default")`. -/
def trivy_db_prepare_failed_msg : String := "Failed to prepare Trivy DB"

/-- The `for cmd in candidates` loop of `_trivy_download_db_only` (source
lines 459-476), iterated over the remaining number of candidate invocation
shapes.  Returns the state, world and the log of attempts, each recorded as
(exit code, whether the vulnerability database was verified on disk at that
attempt's check). -/
def db_candidates_loop (o : Nat → ProcOut) :
    Nat → DBState → World → DBState × World × List (Int × Bool)
  | 0, st, w => (st, w, [])
  | n + 1, st, w =>
    let r := run_proc_o o w
    let rc := r.1.1
    let err := r.1.2
    let w1 := r.2
    if rc == 0 && cache_has_vuln_db w1 then
      (⟨true, st.java_db_ready⟩, w1, [(rc, cache_has_vuln_db w1)])
    else
      let s := lowerStr err
      if strIn "requires at least 1 arg" s || strIn "accepts 1 arg" s
          || strIn "missing argument" s then
        let r2 := run_proc_o o w1
        let rc2 := r2.1.1
        let w2 := r2.2
        if rc2 == 0 && cache_has_vuln_db w2 then
          (⟨true, st.java_db_ready⟩, w2,
           [(rc, cache_has_vuln_db w1), (rc2, cache_has_vuln_db w2)])
        else
          let rest := db_candidates_loop o n st w2
          (rest.1, rest.2.1,
           (rc, cache_has_vuln_db w1) :: (rc2, cache_has_vuln_db w2) :: rest.2.2)
      else
        let rest := db_candidates_loop o n st w1
        (rest.1, rest.2.1, (rc, cache_has_vuln_db w1) :: rest.2.2)

/-- The `for cmd in java_candidates` loop (source lines 490-502), iterated
over the remaining number of java candidate shapes. -/
def java_db_loop (o : Nat → ProcOut) : Nat → DBState → World → DBState × World
  | 0, st, w => (st, w)
  | n + 1, st, w =>
    let r := run_proc_o o w
    let rc := r.1.1
    let err := r.1.2
    let w1 := r.2
    if rc == 0 then
      let st1 : DBState := ⟨st.db_ready, cache_has_java_db w1⟩
      if st1.java_db_ready then (st1, w1)
      else if strIn "unknown flag" (lowerStr err)
          && strIn "--download-java-db-only" (lowerStr err) then (st1, w1)
      else java_db_loop o n st1 w1
    else if strIn "unknown flag" (lowerStr err)
        && strIn "--download-java-db-only" (lowerStr err) then (st, w)
    else java_db_loop o n st w1

/-- The tail of `_trivy_download_db_only` once the vulnerability database is
settled (source lines 487-504): record java-db presence, best-effort warm the
java database, and report success. -/
def db_finish (o : Nat → ProcOut) (st : DBState) (w : World)
    (log : List (Int × Bool)) : (Bool × String) × DBState × World × List (Int × Bool) :=
  let st1 : DBState := ⟨st.db_ready, cache_has_java_db w⟩
  if st1.java_db_ready then ((true, "db ready"), st1, w, log)
  else
    let r := java_db_loop o 2 st1 w
    ((true, "db ready"), r.1, r.2, log)

/-- `_trivy_download_db_only` (source lines 436-504) under an oracle, with a
ghost log of the download attempts (candidate shapes, their retry with a
reference target, and the dummy-scan fallback), each logged as (exit code,
vulnerability database verified at that attempt's check). -/
def trivy_download_db_only (o : Nat → ProcOut) (st : DBState) (w : World) :
    (Bool × String) × DBState × World × List (Int × Bool) :=
  if cache_has_vuln_db w then
    ((true, "db already present"), ⟨true, cache_has_java_db w⟩, w, [])
  else
    let r := db_candidates_loop o 4 st w
    let st1 := r.1
    let w1 := r.2.1
    let log1 := r.2.2
    if st1.db_ready then db_finish o st1 w1 log1
    else
      let rf := run_proc_o o w1
      let rcf := rf.1.1
      let errf := rf.1.2
      let wf := rf.2
      let logf := log1 ++ [(rcf, cache_has_vuln_db wf)]
      if rcf == 0 && cache_has_vuln_db wf then db_finish o ⟨true, st1.java_db_ready⟩ wf logf
      else
        ((false, orElseStr (stripStr errf) trivy_db_prepare_failed_msg), st1, wf, logf)

/-- `ensure_trivy_databases` (source lines 523-544) under an oracle: the
in-process lock is the sequentiality of the model itself; the fast path
returns without touching the world, the slow path takes the cross-process
file lock (counted in `lock_acq`) and runs the preparation. -/
def ensure_trivy_databases (o : Nat → ProcOut) (st : DBState) (w : World) :
    (Bool × String) × DBState × World :=
  if st.db_ready && cache_has_vuln_db w then
    ((true, "db already ready"), ⟨st.db_ready, cache_has_java_db w⟩, w)
  else
    let w1 : World := ⟨w.has_vuln_db, w.has_java_db, w.clock, w.lock_acq + 1⟩
    let r := trivy_download_db_only o st w1
    (r.1, r.2.1, r.2.2.1)

/- ------------------------------------------------------------------ -/
/- scan_docker_image retry protocol (source lines 641-697)             -/
/- ------------------------------------------------------------------ -/

/-- Observable orchestration events: a `_trivy_scan_once` invocation (with or
without sudo), or a database repair. -/
inductive ScanEv
  | attempt (use_sudo : Bool)
  | repair
deriving DecidableEq

/-- The `_do_scan` closure (source lines 650-669) under an oracle `o` giving
each successive `_trivy_scan_once` outcome: the chosen outcome, the next
oracle index, and the events. -/
def do_scan (o : Nat → Int × String) (i : Nat) : (Int × String) × Nat × List ScanEv :=
  let r1 := o i
  if r1.1 != 0 && looks_like_permission_issue r1.2 then
    (o (i + 1), (i + 2, [ScanEv.attempt false, ScanEv.attempt true]))
  else (r1, (i + 1, [ScanEv.attempt false]))

/-- The retry protocol of `scan_docker_image` after database preparation
(source lines 671-684): `_do_scan`, then on a database-looking failure one
repair and, only if the repair succeeded, one more `_do_scan`. -/
def scan_docker_image_core (o : Nat → Int × String) (repair_ok : Bool) :
    (Int × String) × List ScanEv :=
  let a := do_scan o 0
  let r := a.1
  if r.1 != 0 && (looks_like_db_issue r.2 || looks_like_missing_db_path r.2) then
    if repair_ok then
      let b := do_scan o a.2.1
      (b.1, a.2.2 ++ [ScanEv.repair] ++ b.2.2)
    else (r, a.2.2 ++ [ScanEv.repair])
  else (r, a.2.2)

/-- The orchestration protocol exactly as the specification states it, for
comparison with `scan_docker_image_core`: step 2 is one unprivileged
invocation; step 3 retries once with elevated privileges when step 2 failed
with permission-looking text, the retry's outcome replacing the first; step 4,
when the (possibly retried) result still failed with database-looking text,
invokes repair and, only on repair success, retries steps 2-3 exactly once
more; anything else is reported as-is. -/
def scan_protocol_spec (o : Nat → Int × String) (repair_ok : Bool) :
    (Int × String) × List ScanEv :=
  let first := o 0
  let escalated := first.1 != 0 && looks_like_permission_issue first.2
  let outcome1 := if escalated then o 1 else first
  let used1 := if escalated then 2 else 1
  let events1 :=
    if escalated then [ScanEv.attempt false, ScanEv.attempt true] else [ScanEv.attempt false]
  if outcome1.1 != 0 && (looks_like_db_issue outcome1.2 || looks_like_missing_db_path outcome1.2) then
    if repair_ok then
      let second := o used1
      let escalated2 := second.1 != 0 && looks_like_permission_issue second.2
      let outcome2 := if escalated2 then o (used1 + 1) else second
      let events2 :=
        if escalated2 then [ScanEv.attempt false, ScanEv.attempt true] else [ScanEv.attempt false]
      (outcome2, events1 ++ [ScanEv.repair] ++ events2)
    else (outcome1, events1 ++ [ScanEv.repair])
  else (outcome1, events1)

/- ------------------------------------------------------------------ -/
/- Lemmas: ordered-dictionary cells                                    -/
/- ------------------------------------------------------------------ -/

theorem lookup_alist_upd {α : Type} (d : α) (l : List (String × α)) (k x : String)
    (f : α → α) :
    lookup_list d (alist_upd l k f d) x
      = if k = x then f (lookup_list d l x) else lookup_list d l x := by
  induction l with
  | nil =>
    by_cases h : k = x <;> simp [alist_upd, lookup_list, h]
  | cons hd t ih =>
    obtain ⟨k', v⟩ := hd
    by_cases h1 : k' = k
    · subst h1
      by_cases h2 : k' = x <;> simp [alist_upd, lookup_list, h2]
    · by_cases h2 : k' = x
      · subst h2
        have : ¬k = k' := fun h => h1 h.symm
        simp [alist_upd, lookup_list, h1, this]
      · simp [alist_upd, lookup_list, h1, h2, ih]

theorem lookup_bucket_add (b : Bucket) (c s c' s' : String) (e : Entry) :
    lookup_bucket (bucket_add b c s e) c' s'
      = lookup_bucket b c' s' ++ (if c = c' ∧ s = s' then [e] else []) := by
  unfold lookup_bucket bucket_add
  rw [lookup_alist_upd]
  by_cases h1 : c = c'
  · rw [if_pos h1, lookup_alist_upd]
    by_cases h2 : s = s' <;> simp [h1, h2]
  · simp [h1]

theorem lookup_stats_add (st : Stats) (c s c' s' : String) (n : Nat) :
    lookup_stats (stats_add st c s n) c' s'
      = lookup_stats st c' s' + (if c = c' ∧ s = s' then n else 0) := by
  unfold lookup_stats stats_add
  rw [lookup_alist_upd]
  by_cases h1 : c = c'
  · rw [if_pos h1, lookup_alist_upd]
    by_cases h2 : s = s' <;> simp [h1, h2]
  · simp [h1]

theorem foldl_preserve {α β : Type} (P : α → Prop) (f : α → β → α)
    (h : ∀ a b, P a → P (f a b)) :
    ∀ (l : List β) (a : α), P a → P (List.foldl f a l) := by
  intro l
  induction l with
  | nil => intro a ha; exact ha
  | cons x t ih => intro a ha; exact ih (f a x) (h a x ha)

/- ------------------------------------------------------------------ -/
/- The per-cell invariant of analyze_and_format_vulnerabilities        -/
/- ------------------------------------------------------------------ -/

/-- In every (component-type, severity) cell the statistics count equals the
number of bucketed findings, and an inhabited cell's severity belongs to the
included set. -/
def CellInv (included : List String) (acc : Bucket × Stats) : Prop :=
  ∀ c s, lookup_stats acc.2 c s = (lookup_bucket acc.1 c s).length
    ∧ (lookup_bucket acc.1 c s ≠ [] → s ∈ included)

theorem CellInv.add {included : List String} {acc : Bucket × Stats}
    (h : CellInv included acc) (ct sev : String) (e : Entry) (hs : sev ∈ included) :
    CellInv included (bucket_add acc.1 ct sev e, stats_add acc.2 ct sev 1) := by
  intro c s
  have h1 := (h c s).1
  have h2 := (h c s).2
  constructor
  · rw [lookup_stats_add, lookup_bucket_add, h1]
    by_cases hcs : ct = c ∧ sev = s <;> simp [hcs]
  · rw [lookup_bucket_add]
    by_cases hcs : ct = c ∧ sev = s
    · intro _
      rw [← hcs.2]
      exact hs
    · simp only [hcs, if_false, List.append_nil]
      exact h2

theorem process_vuln_inv (included : List String) (rd : ResultData) :
    ∀ (acc : Bucket × Stats) (v : Vuln), CellInv included acc
      → CellInv included (process_vuln included rd acc v) := by
  intro acc v h
  unfold process_vuln
  by_cases hs : upperStr (orUnknown v.Severity) ∈ included
  · simp only [hs, if_pos]
    exact h.add _ _ _ hs
  · simp only [hs, if_neg, not_false_iff]
    exact h

theorem process_secret_inv (included : List String) (rd : ResultData) :
    ∀ (acc : Bucket × Stats) (sec : Secret), CellInv included acc
      → CellInv included (process_secret included rd acc sec) := by
  intro acc sec h
  unfold process_secret
  by_cases hs : upperStr (orUnknown sec.Severity) ∈ included
  · simp only [hs, if_pos]
    exact h.add _ _ _ hs
  · simp only [hs, if_neg, not_false_iff]
    exact h

theorem process_top_secret_inv (included : List String) :
    ∀ (acc : Bucket × Stats) (sec : Secret), CellInv included acc
      → CellInv included (process_top_secret included acc sec) := by
  intro acc sec h
  unfold process_top_secret
  by_cases hs : upperStr (orUnknown sec.Severity) ∈ included
  · simp only [hs, if_pos]
    exact h.add _ _ _ hs
  · simp only [hs, if_neg, not_false_iff]
    exact h

theorem process_result_inv (included : List String) :
    ∀ (acc : Bucket × Stats) (rd : ResultData), CellInv included acc
      → CellInv included (process_result included acc rd) := by
  intro acc rd h
  unfold process_result
  exact foldl_preserve _ _ (process_secret_inv included rd) _ _
    (foldl_preserve _ _ (process_vuln_inv included rd) _ _ h)

theorem analyze_inv (data : Option ScanData) (severity_level : Int) :
    CellInv ((SEVERITY_LEVELS severity_level).getD ["HIGH", "CRITICAL"])
      (analyze_and_format_vulnerabilities data severity_level) := by
  unfold analyze_and_format_vulnerabilities
  cases data with
  | none =>
    intro c s
    simp [lookup_stats, lookup_bucket, lookup_list]
  | some d =>
    have hbase : CellInv ((SEVERITY_LEVELS severity_level).getD ["HIGH", "CRITICAL"])
        (([], []) : Bucket × Stats) := by
      intro c s
      simp [lookup_stats, lookup_bucket, lookup_list]
    exact foldl_preserve _ _ (process_top_secret_inv _) _ _
      (foldl_preserve _ _ (process_result_inv _) _ _ hbase)

/- ------------------------------------------------------------------ -/
/- Claim C10                                                           -/
/- ------------------------------------------------------------------ -/

/-- C10: for every raw scan output and threshold, the component bucket and
the statistics returned by one `analyze_and_format_vulnerabilities` call are
mutually consistent: in every (ComponentType, severity) cell the statistics
count equals the length of the bucketed finding list, and a cell is nonzero
in one structure exactly when it is non-empty in the other. -/
theorem analyze_bucket_stats_consistent (data : Option ScanData) (severity_level : Int)
    (c s : String) :
    lookup_stats (analyze_and_format_vulnerabilities data severity_level).2 c s
      = (lookup_bucket (analyze_and_format_vulnerabilities data severity_level).1 c s).length
    ∧ (lookup_stats (analyze_and_format_vulnerabilities data severity_level).2 c s ≠ 0
        ↔ lookup_bucket (analyze_and_format_vulnerabilities data severity_level).1 c s ≠ []) := by
  have h := (analyze_inv data severity_level c s).1
  refine ⟨h, ?_⟩
  rw [h]
  simp [List.length_eq_zero]

/- ------------------------------------------------------------------ -/
/- Claim C1                                                            -/
/- ------------------------------------------------------------------ -/

/-- C1: for every severity threshold k in 1..5 and every raw scan output,
`analyze_and_format_vulnerabilities` emits findings (in both the component
bucket and the statistics) only under severities belonging to
`SEVERITY_LEVELS[k]`; in particular for k = 5 only under CRITICAL. -/
theorem analyze_respects_threshold (data : Option ScanData) (k : Int) (c s : String)
    (h1 : 1 ≤ k) (h2 : k ≤ 5)
    (hne : lookup_bucket (analyze_and_format_vulnerabilities data k).1 c s ≠ []
      ∨ lookup_stats (analyze_and_format_vulnerabilities data k).2 c s ≠ 0) :
    s ∈ (SEVERITY_LEVELS k).getD [] ∧ (k = 5 → s = "CRITICAL") := by
  have hinv := analyze_inv data k c s
  have hbne : lookup_bucket (analyze_and_format_vulnerabilities data k).1 c s ≠ [] := by
    rcases hne with h | h
    · exact h
    · intro hc
      apply h
      rw [hinv.1, hc]
      rfl
  have hmem := hinv.2 hbne
  have hsome : (SEVERITY_LEVELS k).getD ["HIGH", "CRITICAL"] = (SEVERITY_LEVELS k).getD [] := by
    interval_cases k <;> simp [SEVERITY_LEVELS]
  constructor
  · rw [← hsome]
    exact hmem
  · intro hk
    subst hk
    rw [hsome] at hmem
    simpa [SEVERITY_LEVELS] using hmem

/-- A concrete scan output used to witness the claims: one alpine os-package
result group with a CRITICAL vulnerability. -/
def sample_scan_data : ScanData :=
  ⟨some [⟨some "alpine:3.19", some "os-pkgs", some "alpine",
    some [⟨some "CVE-2024-0001", some "musl", none, some "1.2.4", some "1.2.5",
      some "critical", some "sample", none, none, none, none⟩], none⟩], none⟩

theorem analyze_respects_threshold_witness :
    (lookup_bucket (analyze_and_format_vulnerabilities (some sample_scan_data) 5).1
        "Alpine-package" "CRITICAL" ≠ []
      ∨ lookup_stats (analyze_and_format_vulnerabilities (some sample_scan_data) 5).2
        "Alpine-package" "CRITICAL" ≠ 0)
    ∧ ("CRITICAL" ∈ (SEVERITY_LEVELS 5).getD [] ∧ ((5 : Int) = 5 → "CRITICAL" = "CRITICAL")) :=
  ⟨by decide,
   analyze_respects_threshold (some sample_scan_data) 5 "Alpine-package" "CRITICAL"
     (by decide) (by decide) (by decide)⟩

/- ------------------------------------------------------------------ -/
/- Claim C2                                                            -/
/- ------------------------------------------------------------------ -/

/-- C2 counterexample: two invocations whose result groups agree on Class and
Type and whose vulnerability findings agree on PkgName and PkgPath, yet which
return different ComponentTypes, because `classify_component_type` also reads
the result group's Target in its non-package fallthrough (the
`"config" in target.lower()` test, source line 737). -/
theorem classify_not_pure_in_class_type_pkg :
    (ResultData.mk (some "etc/myconfig.yaml") (some "") (some "") none none).Class
        = (ResultData.mk (some "app") (some "") (some "") none none).Class
    ∧ (ResultData.mk (some "etc/myconfig.yaml") (some "") (some "") none none).Typ
        = (ResultData.mk (some "app") (some "") (some "") none none).Typ
    ∧ classify_component_type (ResultData.mk (some "etc/myconfig.yaml") (some "") (some "") none none)
        (some (Vuln.mk none (some "libfoo") (some "/usr/lib/libfoo") none none none none none none none none))
        none = "Configuration"
    ∧ classify_component_type (ResultData.mk (some "app") (some "") (some "") none none)
        (some (Vuln.mk none (some "libfoo") (some "/usr/lib/libfoo") none none none none none none none none))
        none = "Unknown-component" := by
  refine ⟨rfl, rfl, ?_, ?_⟩ <;> decide

/-- C2 amended: `classify_component_type` on a vulnerability finding is a
pure function of the result group's Target, Class and Type together with the
finding's PkgName and PkgPath — invocations agreeing on those five values
return identical ComponentTypes. -/
theorem classify_pure_in_target_class_type_pkg (rd1 rd2 : ResultData) (v1 v2 : Vuln)
    (hT : rd1.Target = rd2.Target) (hC : rd1.Class = rd2.Class) (hTy : rd1.Typ = rd2.Typ)
    (hN : v1.PkgName = v2.PkgName) (hP : v1.PkgPath = v2.PkgPath) :
    classify_component_type rd1 (some v1) none = classify_component_type rd2 (some v2) none := by
  rcases rd1 with ⟨t1, c1, y1, vl1, sl1⟩
  rcases rd2 with ⟨t2, c2, y2, vl2, sl2⟩
  rcases v1 with ⟨i1, n1, p1, q1, r1, s1, u1, d1, cv1, ss1, pu1⟩
  rcases v2 with ⟨i2, n2, p2, q2, r2, s2, u2, d2, cv2, ss2, pu2⟩
  simp only at hT hC hTy hN hP
  subst hT
  subst hC
  subst hTy
  subst hN
  subst hP
  rfl

theorem classify_pure_in_target_class_type_pkg_witness :
    classify_component_type (ResultData.mk (some "t") (some "lang-pkgs") (some "gobinary") none none)
      (some (Vuln.mk (some "CVE-1") (some "app") (some "/bin/app") none none none none none none none none))
      none
    = classify_component_type
        (ResultData.mk (some "t") (some "lang-pkgs") (some "gobinary") (some []) (some []))
        (some (Vuln.mk (some "CVE-2") (some "app") (some "/bin/app") (some "0.1") none (some "HIGH")
          none none none none none))
        none :=
  classify_pure_in_target_class_type_pkg _ _ _ _ rfl rfl rfl rfl rfl

/- ------------------------------------------------------------------ -/
/- Claim C5                                                            -/
/- ------------------------------------------------------------------ -/

/-- C5: the process runner returns a non-zero exit code of the spawned
command as an ordinary result (never an exception — the model function is
total and the exit code is passed through unchanged for every completing
process, with no kill); on timeout expiry it kills the process and returns
the sentinel `(124, "", "timeout")`: exit code 124 and no captured process
output. -/
theorem run_proc_no_raise_and_timeout (rc : Int) (out err : String)
    (stdout_pipe stderr_pipe : Bool) :
    (run_proc (ProcBehavior.completes rc out err) stdout_pipe stderr_pipe).1.1 = rc
    ∧ (run_proc (ProcBehavior.completes rc out err) stdout_pipe stderr_pipe).2 = false
    ∧ (run_proc (ProcBehavior.completes rc out err) stdout_pipe stderr_pipe).1.2.2 = err
    ∧ run_proc ProcBehavior.timedOut stdout_pipe stderr_pipe = ((124, "", "timeout"), true) :=
  ⟨rfl, rfl, rfl, rfl⟩

/- ------------------------------------------------------------------ -/
/- Claim C8                                                            -/
/- ------------------------------------------------------------------ -/

/-- C8: the per-target scan orchestration equals the specified retry protocol
exactly — unprivileged attempt first; one elevated retry replacing the
outcome iff the failure text matches the permission heuristic; repair iff the
(possibly retried) result still fails with database-looking text, with one
whole retry of the invocation only on repair success; everything else
reported as-is with no retry. -/
theorem scan_core_follows_protocol (o : Nat → Int × String) (repair_ok : Bool) :
    scan_docker_image_core o repair_ok = scan_protocol_spec o repair_ok := by
  unfold scan_docker_image_core scan_protocol_spec do_scan
  by_cases h1 : ((o 0).1 != 0 && looks_like_permission_issue (o 0).2) = true
  · by_cases h2 : ((o 1).1 != 0
        && (looks_like_db_issue (o 1).2 || looks_like_missing_db_path (o 1).2)) = true
    · cases repair_ok with
      | false => simp [h1, h2]
      | true =>
        by_cases h3 : ((o 2).1 != 0 && looks_like_permission_issue (o 2).2) = true
          <;> simp [h1, h2, h3]
    · simp [h1, h2]
  · by_cases h2 : ((o 0).1 != 0
        && (looks_like_db_issue (o 0).2 || looks_like_missing_db_path (o 0).2)) = true
    · cases repair_ok with
      | false => simp [h1, h2]
      | true =>
        by_cases h3 : ((o 1).1 != 0 && looks_like_permission_issue (o 1).2) = true
          <;> simp [h1, h2, h3]
    · simp [h1, h2]

/- ------------------------------------------------------------------ -/
/- Claim C3                                                            -/
/- ------------------------------------------------------------------ -/

/-- One fallback retry: exactly one previously-enabled flag disabled, all
others unchanged. -/
def flag_step (a b : Flags) : Prop := Flags.Sub b a ∧ b.count + 1 = a.count

/-- What the final attempt of `_trivy_scan_once` returns: the temp path on
success, otherwise the (stripped, defaulted) stderr text. -/
def scan_final (env : Flags → Int × String) (tmp_path : String) (g : Flags) : Int × String :=
  if (env g).1 == 0 then (0, tmp_path)
  else ((env g).1, orElseStr (stripStr (env g).2) trivy_scan_failed_msg)

theorem Flags.sub_dropNoProgress (f : Flags) : Flags.Sub f.dropNoProgress f := by
  rcases f with ⟨a, b, c, d, e⟩
  simp [Flags.Sub, Flags.dropNoProgress]

theorem Flags.sub_dropQuiet (f : Flags) : Flags.Sub f.dropQuiet f := by
  rcases f with ⟨a, b, c, d, e⟩
  simp [Flags.Sub, Flags.dropQuiet]

theorem Flags.sub_dropTimeout (f : Flags) : Flags.Sub f.dropTimeout f := by
  rcases f with ⟨a, b, c, d, e⟩
  simp [Flags.Sub, Flags.dropTimeout]

theorem Flags.sub_dropSkipDb (f : Flags) : Flags.Sub f.dropSkipDb f := by
  rcases f with ⟨a, b, c, d, e⟩
  simp [Flags.Sub, Flags.dropSkipDb]

theorem Flags.sub_dropSkipJavaDb (f : Flags) : Flags.Sub f.dropSkipJavaDb f := by
  rcases f with ⟨a, b, c, d, e⟩
  simp [Flags.Sub, Flags.dropSkipJavaDb]

theorem getLastD_irrel {α : Type} {l : List α} (h : l ≠ []) (d1 d2 : α) :
    l.getLastD d1 = l.getLastD d2 := by
  cases l with
  | nil => exact absurd rfl h
  | cons x t => simp [List.getLastD]


/-- The trace facts tracked through the fallback recursion: the first attempt
uses the given flag set, there are at most `count + 1` attempts, every retry
drops exactly one enabled flag, the final attempt's flag set is included in
the initial one, and the returned result is the final attempt's result. -/
def ScanTrace (env : Flags → Int × String) (tmp_path : String) (f : Flags) : Prop :=
  (trivy_scan_once env tmp_path f).2.head? = some f
  ∧ (trivy_scan_once env tmp_path f).2.length ≤ Flags.count f + 1
  ∧ Flags.Sub ((trivy_scan_once env tmp_path f).2.getLastD f) f
  ∧ List.Chain' flag_step (trivy_scan_once env tmp_path f).2
  ∧ (trivy_scan_once env tmp_path f).1
      = scan_final env tmp_path ((trivy_scan_once env tmp_path f).2.getLastD f)

theorem scan_trace_base (env : Flags → Int × String) (tmp_path : String) (f : Flags)
    (hr : trivy_scan_once env tmp_path f = (scan_final env tmp_path f, [f])) :
    ScanTrace env tmp_path f := by
  unfold ScanTrace
  rw [hr]
  exact ⟨rfl, by simp, Flags.Sub.refl f, by simp, rfl⟩

theorem scan_trace_step (env : Flags → Int × String) (tmp_path : String) (f g : Flags)
    (hsub : Flags.Sub g f) (hcount : g.count + 1 = f.count)
    (hr : trivy_scan_once env tmp_path f
      = ((trivy_scan_once env tmp_path g).1, f :: (trivy_scan_once env tmp_path g).2))
    (ih : ScanTrace env tmp_path g) : ScanTrace env tmp_path f := by
  obtain ⟨ih1, ih2, ih3, ih4, ih5⟩ := ih
  have hne : (trivy_scan_once env tmp_path g).2 ≠ [] := by
    intro hc
    rw [hc] at ih1
    exact nomatch ih1
  obtain ⟨t, ht⟩ : ∃ t, (trivy_scan_once env tmp_path g).2 = g :: t := by
    cases hx : (trivy_scan_once env tmp_path g).2 with
    | nil => exact absurd hx hne
    | cons y t =>
      rw [hx] at ih1
      simp at ih1
      exact ⟨t, by rw [ih1]⟩
  unfold ScanTrace
  rw [hr]
  dsimp only
  refine ⟨rfl, ?_, ?_, ?_, ?_⟩
  · simp only [List.length_cons]
    omega
  · rw [List.getLastD_cons, getLastD_irrel hne f g]
    exact Flags.Sub.trans ih3 hsub
  · rw [ht]
    rw [ht] at ih4
    exact List.Chain'.cons ⟨hsub, hcount⟩ ih4
  · rw [List.getLastD_cons, getLastD_irrel hne f g]
    exact ih5

theorem scan_trace (env : Flags → Int × String) (tmp_path : String) (f : Flags) :
    ScanTrace env tmp_path f := by
  induction f using trivy_scan_once.induct env tmp_path with
  | case1 f rc hrc =>
    refine scan_trace_base env tmp_path f ?_
    have heq : (env f).1 = 0 := by simpa using hrc
    rw [trivy_scan_once.eq_def]
    simp [scan_final, heq]
  | case2 f rc err h1 h2 ih =>
    refine scan_trace_step env tmp_path f f.dropNoProgress (Flags.sub_dropNoProgress f)
      (Flags.count_dropNoProgress f ((Bool.and_eq_true _ _).mp h2).1) ?_ ih
    rw [trivy_scan_once.eq_def]
    simp [h1, h2]
  | case3 f rc err h1 h2 h3 ih =>
    refine scan_trace_step env tmp_path f f.dropQuiet (Flags.sub_dropQuiet f)
      (Flags.count_dropQuiet f ((Bool.and_eq_true _ _).mp h3).1) ?_ ih
    rw [trivy_scan_once.eq_def]
    simp [h1, h2, h3]
  | case4 f rc err h1 h2 h3 h4 ih =>
    refine scan_trace_step env tmp_path f f.dropTimeout (Flags.sub_dropTimeout f)
      (Flags.count_dropTimeout f ((Bool.and_eq_true _ _).mp h4).1) ?_ ih
    rw [trivy_scan_once.eq_def]
    simp [h1, h2, h3, h4]
  | case5 f rc err h1 h2 h3 h4 h5 ih =>
    refine scan_trace_step env tmp_path f f.dropSkipDb (Flags.sub_dropSkipDb f)
      (Flags.count_dropSkipDb f ((Bool.and_eq_true _ _).mp h5).1) ?_ ih
    rw [trivy_scan_once.eq_def]
    simp [h1, h2, h3, h4, h5]
  | case6 f rc err h1 h2 h3 h4 h5 h6 ih =>
    refine scan_trace_step env tmp_path f f.dropSkipJavaDb (Flags.sub_dropSkipJavaDb f)
      (Flags.count_dropSkipJavaDb f ((Bool.and_eq_true _ _).mp h6).1) ?_ ih
    rw [trivy_scan_once.eq_def]
    simp [h1, h2, h3, h4, h5, h6]
  | case7 f rc err h1 h2 h3 h4 h5 h6 =>
    refine scan_trace_base env tmp_path f ?_
    rw [trivy_scan_once.eq_def]
    simp [scan_final, h1, h2, h3, h4, h5, h6]

/-- C3: the adaptive scan invoker terminates for every input (it is a total
function), makes at most `count`+1 ≤ 6 invocation attempts, starts from the
given flag set, disables exactly one enabled flag per retry leaving all
others unchanged (each consecutive attempt pair is a `flag_step`), the final
attempt's flag set is a subset of the initial one, and the returned outcome
is the final attempt's outcome. -/
theorem trivy_scan_once_fallback_bounded (env : Flags → Int × String) (tmp_path : String)
    (f : Flags) :
    (trivy_scan_once env tmp_path f).2.length ≤ Flags.count f + 1
    ∧ (trivy_scan_once env tmp_path f).2.length ≤ 6
    ∧ (trivy_scan_once env tmp_path f).2.head? = some f
    ∧ List.Chain' flag_step (trivy_scan_once env tmp_path f).2
    ∧ Flags.Sub ((trivy_scan_once env tmp_path f).2.getLastD f) f
    ∧ (trivy_scan_once env tmp_path f).1
        = scan_final env tmp_path ((trivy_scan_once env tmp_path f).2.getLastD f) := by
  obtain ⟨h1, h2, h3, h4, h5⟩ := scan_trace env tmp_path f
  have hc := Flags.count_le_five f
  exact ⟨h2, by omega, h1, h4, h3, h5⟩

/- ------------------------------------------------------------------ -/
/- Claim C9                                                            -/
/- ------------------------------------------------------------------ -/

/-- A stripped input line that survives into the target list: non-blank, not
a comment, not a severity directive. -/
def is_target_line (l : String) : Bool :=
  !(l == "" || startsStr l "#") && !startsStr (lowerStr l) "severity="

theorem charsStart_sev_facts (l : List Char)
    (h : charsStart "severity=".data (l.map Char.toLower) = true) :
    l ≠ [] ∧ charsStart "#".data l = false := by
  cases l with
  | nil => exact absurd h (by decide)
  | cons c t =>
    refine ⟨by simp, ?_⟩
    have hc : ('s' == Char.toLower c) = true := by
      have hd : "severity=".data
          = 's' :: 'e' :: 'v' :: 'e' :: 'r' :: 'i' :: 't' :: 'y' :: '=' :: [] := rfl
      rw [hd] at h
      simp only [List.map, charsStart, Bool.and_eq_true] at h
      exact h.1
    have hcs : Char.toLower c = 's' := (beq_iff_eq.mp hc).symm
    have hne : ('#' == c) = false := by
      by_contra hcontra
      have hx : ('#' == c) = true := by
        cases hx : ('#' == c) with
        | false => exact absurd hx hcontra
        | true => rfl
      have hceq : c = '#' := (beq_iff_eq.mp hx).symm
      rw [hceq] at hcs
      exact absurd hcs (by decide)
    have hd2 : "#".data = '#' :: [] := rfl
    rw [hd2]
    simp [charsStart, hne]

theorem severity_line_not_skipped (raw : String)
    (h : startsStr (lowerStr (stripStr raw)) "severity=" = true) :
    (stripStr raw == "" || startsStr (stripStr raw) "#") = false := by
  have hfacts := charsStart_sev_facts (stripChars raw.data) h
  have h1 : (stripStr raw == "") = false := by
    cases hx : (stripStr raw == "") with
    | false => rfl
    | true =>
      have heq : stripStr raw = "" := beq_iff_eq.mp hx
      have hdata : stripChars raw.data = [] := congrArg String.data heq
      exact absurd hdata hfacts.1
  have h2 : startsStr (stripStr raw) "#" = false := hfacts.2
  rw [h1, h2]
  rfl

theorem parse_items_characterization (lines : List String) :
    ∀ acc : Int × List String,
      (List.foldl parse_step acc lines).2
        = acc.2 ++ ((lines.map stripStr).filter is_target_line) := by
  induction lines with
  | nil => intro acc; simp
  | cons l t ih =>
    intro acc
    simp only [List.foldl_cons, List.map_cons, List.filter_cons]
    rw [ih]
    by_cases hskip : (stripStr l == "" || startsStr (stripStr l) "#") = true
    · have hline : parse_step acc l = acc := by
        unfold parse_step
        simp only [hskip, if_true]
      have htar : is_target_line (stripStr l) = false := by
        unfold is_target_line
        simp [hskip]
      rw [hline, htar]
      simp
    · by_cases hsev : startsStr (lowerStr (stripStr l)) "severity=" = true
      · have hline : (parse_step acc l).2 = acc.2 := by
          unfold parse_step
          simp [hskip, hsev]
        have htar : is_target_line (stripStr l) = false := by
          unfold is_target_line
          simp [hsev]
        rw [hline, htar]
        simp
      · have hline : parse_step acc l = (acc.1, acc.2 ++ [stripStr l]) := by
          unfold parse_step
          simp [hskip, hsev]
        have htar : is_target_line (stripStr l) = true := by
          unfold is_target_line
          simp [Bool.not_eq_true] at hskip hsev
          simp [hskip, hsev]
        rw [hline, htar]
        simp

theorem parse_no_severity_line (lines : List String) :
    ∀ acc : Int × List String,
      (∀ l ∈ lines, startsStr (lowerStr (stripStr l)) "severity=" = false) →
      (List.foldl parse_step acc lines).1 = acc.1 := by
  induction lines with
  | nil => intro acc _; rfl
  | cons l t ih =>
    intro acc h
    have hl : startsStr (lowerStr (stripStr l)) "severity=" = false :=
      h l (List.mem_cons_self l t)
    have ht : ∀ x ∈ t, startsStr (lowerStr (stripStr x)) "severity=" = false :=
      fun x hx => h x (List.mem_cons_of_mem l hx)
    simp only [List.foldl_cons]
    rw [ih _ ht]
    by_cases hskip : (stripStr l == "" || startsStr (stripStr l) "#") = true
    · unfold parse_step
      simp only [hskip, if_true]
    · unfold parse_step
      simp [hskip, hl]

/-- C9: input-file parsing maps a `severity=<int>` line with value k in 1..5
to threshold k; a severity line whose value is invalid or out of range yields
threshold 4, and in general a severity line contributes no target and sets
the threshold either to its in-range parsed value or to 4; a file with no
severity line keeps the default threshold 4; comment lines and blank lines
contribute no target (the targets are exactly the stripped non-blank,
non-comment, non-severity lines, in order). -/
theorem parse_input_file_severity :
    (∀ k : Int, 1 ≤ k → k ≤ 5 →
      parse_input_file ["severity=" ++ toString k] = (k, []))
    ∧ (∀ (raw : String) (acc : Int × List String),
        startsStr (lowerStr (stripStr raw)) "severity=" = true →
        (parse_step acc raw).2 = acc.2
        ∧ ((∃ n : Int, pyIntOfChars (stripChars (split_eq_tail (stripStr raw)).data) = some n
              ∧ 1 ≤ n ∧ n ≤ 5 ∧ (parse_step acc raw).1 = n)
           ∨ (parse_step acc raw).1 = 4))
    ∧ (∀ lines : List String,
        (∀ l ∈ lines, startsStr (lowerStr (stripStr l)) "severity=" = false) →
        (parse_input_file lines).1 = 4)
    ∧ (∀ lines : List String,
        (parse_input_file lines).2 = (lines.map stripStr).filter is_target_line) := by
  refine ⟨?_, ?_, ?_, ?_⟩
  · intro k h1 h5
    interval_cases k <;> decide
  · intro raw acc hsev
    have hskip := severity_line_not_skipped raw hsev
    constructor
    · unfold parse_step
      simp [hskip, hsev]
    · cases hp : pyIntOfChars (stripChars (split_eq_tail (stripStr raw)).data) with
      | none =>
        right
        unfold parse_step
        simp only [hskip, hsev, if_true, Bool.false_eq_true, if_false]
        unfold safe_int
        rw [hp]
        simp
      | some n =>
        by_cases hr : 1 ≤ n ∧ n ≤ 5
        · left
          refine ⟨n, rfl, hr.1, hr.2, ?_⟩
          unfold parse_step
          simp only [hskip, hsev, if_true, Bool.false_eq_true, if_false]
          unfold safe_int
          rw [hp]
          simp [hr]
        · right
          unfold parse_step
          simp only [hskip, hsev, if_true, Bool.false_eq_true, if_false]
          unfold safe_int
          rw [hp]
          simp [hr]
  · intro lines h
    exact parse_no_severity_line lines (4, []) h
  · intro lines
    exact parse_items_characterization lines (4, [])

theorem parse_input_file_severity_witness :
    parse_input_file ["severity=" ++ toString (3 : Int)] = ((3 : Int), []) :=
  parse_input_file_severity.1 3 (by decide) (by decide)

/- ------------------------------------------------------------------ -/
/- Claim C7                                                            -/
/- ------------------------------------------------------------------ -/

/-- The run-wide merge loop of `scan_remote_images` / `scan_local_dockerfiles`
(source lines 953-957 and 1071-1075): for every component type and severity
of the incoming per-target statistics, add its count into the overall
statistics. -/
def merge_stats_into (overall : Stats) (stats : Stats) : Stats :=
  stats.foldl (fun acc p => p.2.foldl (fun acc2 q => stats_add acc2 p.1 q.1 q.2) acc) overall

/-- Merging a run's per-target statistics, in order, into the initially empty
overall `defaultdict`. -/
def merge_all_stats (l : List Stats) : Stats := l.foldl merge_stats_into []

/-- Well-formedness a Python nested dict always has: outer keys distinct, and
each inner key list distinct. -/
def StatsWF (st : Stats) : Prop :=
  (st.map Prod.fst).Nodup ∧ ∀ p ∈ st, (p.2.map Prod.fst).Nodup

/-- Total count an inner severity dict contributes to severity `s`. -/
def inner_weight (m : List (String × Nat)) (s : String) : Nat :=
  (m.map fun q => if q.1 = s then q.2 else 0).sum

/-- Total count a statistics dict contributes to cell (c, s). -/
def outer_weight (b : Stats) (c s : String) : Nat :=
  (b.map fun p => if p.1 = c then inner_weight p.2 s else 0).sum

theorem inner_fold_lookup (m : List (String × Nat)) (ct c s : String) :
    ∀ acc : Stats,
      lookup_stats (m.foldl (fun acc2 q => stats_add acc2 ct q.1 q.2) acc) c s
        = lookup_stats acc c s + (if ct = c then inner_weight m s else 0) := by
  induction m with
  | nil => intro acc; simp [inner_weight]
  | cons q t ih =>
    intro acc
    simp only [List.foldl_cons]
    rw [ih, lookup_stats_add]
    by_cases h1 : ct = c
    · by_cases h2 : q.1 = s <;> simp [inner_weight, h1, h2] <;> omega
    · simp [h1]

theorem merge_stats_into_lookup_weight (b : Stats) (c s : String) :
    ∀ a : Stats,
      lookup_stats (merge_stats_into a b) c s = lookup_stats a c s + outer_weight b c s := by
  induction b with
  | nil => intro a; simp [merge_stats_into, outer_weight]
  | cons p t ih =>
    intro a
    unfold merge_stats_into at ih ⊢
    simp only [List.foldl_cons]
    rw [ih, inner_fold_lookup]
    by_cases h1 : p.1 = c <;> simp [outer_weight, h1] <;> omega

theorem inner_weight_absent (m : List (String × Nat)) (s : String)
    (h : s ∉ m.map Prod.fst) : inner_weight m s = 0 := by
  induction m with
  | nil => rfl
  | cons q t ih =>
    obtain ⟨k, v⟩ := q
    have hq : ¬k = s := fun hc => h (by rw [List.map_cons, hc]; exact List.mem_cons_self s _)
    have ht : s ∉ t.map Prod.fst :=
      fun hc => h (by rw [List.map_cons]; exact List.mem_cons_of_mem _ hc)
    unfold inner_weight at ih ⊢
    simp only [List.map_cons, List.sum_cons]
    rw [if_neg hq, ih ht]

theorem outer_weight_absent (b : Stats) (c s : String)
    (h : c ∉ b.map Prod.fst) : outer_weight b c s = 0 := by
  induction b with
  | nil => rfl
  | cons p t ih =>
    obtain ⟨k, m⟩ := p
    have hk : ¬k = c := fun hc => h (by rw [List.map_cons, hc]; exact List.mem_cons_self c _)
    have ht : c ∉ t.map Prod.fst :=
      fun hc => h (by rw [List.map_cons]; exact List.mem_cons_of_mem _ hc)
    unfold outer_weight at ih ⊢
    simp only [List.map_cons, List.sum_cons]
    rw [if_neg hk, ih ht]

theorem inner_weight_lookup (m : List (String × Nat)) (s : String)
    (h : (m.map Prod.fst).Nodup) : inner_weight m s = lookup_list 0 m s := by
  induction m with
  | nil => rfl
  | cons q t ih =>
    obtain ⟨k, v⟩ := q
    simp only [List.map_cons, List.nodup_cons] at h
    unfold inner_weight at ih ⊢
    simp only [List.map_cons, List.sum_cons, lookup_list]
    by_cases h1 : k = s
    · subst h1
      have habs := inner_weight_absent t k h.1
      unfold inner_weight at habs
      rw [if_pos rfl, if_pos rfl, habs]
      omega
    · rw [if_neg h1, if_neg h1, ih h.2]
      omega

theorem outer_weight_lookup (b : Stats) (c s : String)
    (h : StatsWF b) : outer_weight b c s = lookup_stats b c s := by
  induction b with
  | nil => rfl
  | cons p t ih =>
    obtain ⟨h1, h2⟩ := h
    obtain ⟨k, m⟩ := p
    simp only [List.map_cons, List.nodup_cons] at h1
    unfold outer_weight lookup_stats at ih ⊢
    simp only [List.map_cons, List.sum_cons, lookup_list]
    by_cases hc : k = c
    · subst hc
      have habs := outer_weight_absent t k s h1.1
      unfold outer_weight at habs
      rw [if_pos rfl, if_pos rfl, habs,
        inner_weight_lookup m s (h2 (k, m) (List.mem_cons_self (k, m) t))]
      omega
    · have hwf : StatsWF t := ⟨h1.2, fun q hq => h2 q (List.mem_cons_of_mem (k, m) hq)⟩
      rw [if_neg hc, if_neg hc, ih hwf]
      omega

theorem merge_stats_into_lookup (a b : Stats) (c s : String) (hb : StatsWF b) :
    lookup_stats (merge_stats_into a b) c s = lookup_stats a c s + lookup_stats b c s := by
  rw [merge_stats_into_lookup_weight, outer_weight_lookup b c s hb]

theorem alist_upd_keys {α : Type} (l : List (String × α)) (k : String) (f : α → α) (d : α) :
    (alist_upd l k f d).map Prod.fst
      = if k ∈ l.map Prod.fst then l.map Prod.fst else l.map Prod.fst ++ [k] := by
  induction l with
  | nil => simp [alist_upd]
  | cons q t ih =>
    obtain ⟨k', v⟩ := q
    by_cases h : k' = k
    · subst h
      simp [alist_upd]
    · have hne : ¬k = k' := fun hc => h hc.symm
      simp only [alist_upd, if_neg h, List.map_cons, ih, List.mem_cons]
      by_cases hm : k ∈ t.map Prod.fst
      · simp [hm, hne]
      · simp [hm, hne]

theorem alist_upd_keys_nodup {α : Type} (l : List (String × α)) (k : String) (f : α → α)
    (d : α) (h : (l.map Prod.fst).Nodup) : ((alist_upd l k f d).map Prod.fst).Nodup := by
  rw [alist_upd_keys]
  by_cases hm : k ∈ l.map Prod.fst
  · simpa [hm] using h
  · simp [hm, List.nodup_append, h]

theorem alist_upd_forall {α : Type} (P : α → Prop) (l : List (String × α)) (k : String)
    (f : α → α) (d : α) (hl : ∀ p ∈ l, P p.2) (hf : ∀ x, P x → P (f x)) (hd : P d) :
    ∀ p ∈ alist_upd l k f d, P p.2 := by
  induction l with
  | nil =>
    intro p hp
    simp only [alist_upd, List.mem_singleton] at hp
    rw [hp]
    exact hf d hd
  | cons q t ih =>
    obtain ⟨k', v⟩ := q
    intro p hp
    by_cases h : k' = k
    · subst h
      simp only [alist_upd, if_pos rfl] at hp
      cases hp with
      | head => exact hf v (hl (k', v) (List.mem_cons_self _ _))
      | tail _ hp => exact hl p (List.mem_cons_of_mem _ hp)
    · simp only [alist_upd, if_neg h] at hp
      cases hp with
      | head => exact hl (k', v) (List.mem_cons_self _ _)
      | tail _ hp => exact ih (fun q hq => hl q (List.mem_cons_of_mem _ hq)) p hp

theorem stats_add_wf (st : Stats) (c s : String) (n : Nat) (h : StatsWF st) :
    StatsWF (stats_add st c s n) := by
  constructor
  · exact alist_upd_keys_nodup st c _ [] h.1
  · refine alist_upd_forall (fun m => (m.map Prod.fst).Nodup) st c _ [] h.2 ?_ (by simp)
    intro m hm
    exact alist_upd_keys_nodup m s _ 0 hm

theorem merge_stats_into_wf (a b : Stats) (h : StatsWF a) :
    StatsWF (merge_stats_into a b) := by
  unfold merge_stats_into
  refine foldl_preserve StatsWF _ ?_ b a h
  intro acc p hacc
  refine foldl_preserve StatsWF _ ?_ p.2 acc hacc
  intro acc2 q hacc2
  exact stats_add_wf acc2 p.1 q.1 q.2 hacc2

theorem merge_all_lookup_aux (l : List Stats) (c s : String) :
    ∀ a : Stats, (∀ st ∈ l, StatsWF st) →
      lookup_stats (l.foldl merge_stats_into a) c s
        = lookup_stats a c s + (l.map (fun st => lookup_stats st c s)).sum := by
  induction l with
  | nil => intro a _; simp
  | cons st t ih =>
    intro a hl
    simp only [List.foldl_cons, List.map_cons, List.sum_cons]
    rw [ih (merge_stats_into a st) (fun x hx => hl x (List.mem_cons_of_mem _ hx)),
      merge_stats_into_lookup a st c s (hl st (List.mem_cons_self _ _))]
    omega

/-- C7: the run-wide merged statistics equal, in every (ComponentType,
severity) cell, the sum over all per-target statistics of that cell's count;
the merge is commutative and associative cell-wise, so any merge order (any
permutation of the per-target list) yields the same run-wide statistics. -/
theorem overall_statistics_merge (a b d : Stats) (l l' : List Stats) (c s : String)
    (ha : StatsWF a) (hb : StatsWF b) (hd : StatsWF d)
    (hl : ∀ st ∈ l, StatsWF st) (hp : l.Perm l') :
    lookup_stats (merge_stats_into a b) c s = lookup_stats a c s + lookup_stats b c s
    ∧ lookup_stats (merge_stats_into a b) c s = lookup_stats (merge_stats_into b a) c s
    ∧ lookup_stats (merge_stats_into (merge_stats_into a b) d) c s
        = lookup_stats (merge_stats_into a (merge_stats_into b d)) c s
    ∧ lookup_stats (merge_all_stats l) c s = (l.map (fun st => lookup_stats st c s)).sum
    ∧ lookup_stats (merge_all_stats l) c s = lookup_stats (merge_all_stats l') c s := by
  have hsum : lookup_stats (merge_all_stats l) c s
      = (l.map (fun st => lookup_stats st c s)).sum := by
    unfold merge_all_stats
    rw [merge_all_lookup_aux l c s [] hl]
    simp [lookup_stats, lookup_list]
  have hl' : ∀ st ∈ l', StatsWF st := fun st hst => hl st (hp.symm.mem_iff.mp hst)
  have hsum' : lookup_stats (merge_all_stats l') c s
      = (l'.map (fun st => lookup_stats st c s)).sum := by
    unfold merge_all_stats
    rw [merge_all_lookup_aux l' c s [] hl']
    simp [lookup_stats, lookup_list]
  refine ⟨merge_stats_into_lookup a b c s hb, ?_, ?_, hsum, ?_⟩
  · rw [merge_stats_into_lookup a b c s hb, merge_stats_into_lookup b a c s ha]
    omega
  · rw [merge_stats_into_lookup _ d c s hd, merge_stats_into_lookup a b c s hb,
      merge_stats_into_lookup a _ c s, merge_stats_into_lookup b d c s hd]
    · omega
    · exact merge_stats_into_wf b d hb
  · rw [hsum, hsum']
    exact (hp.map (fun st => lookup_stats st c s)).sum_eq

theorem overall_statistics_merge_witness :
    lookup_stats (merge_stats_into [("A", [("HIGH", 1)])] [("A", [("HIGH", 2), ("LOW", 1)])])
        "A" "HIGH"
      = lookup_stats [("A", [("HIGH", 1)])] "A" "HIGH"
        + lookup_stats [("A", [("HIGH", 2), ("LOW", 1)])] "A" "HIGH" :=
  (overall_statistics_merge [("A", [("HIGH", 1)])] [("A", [("HIGH", 2), ("LOW", 1)])]
    [("B", [("HIGH", 5)])]
    [[("A", [("HIGH", 1)])], [("A", [("HIGH", 2), ("LOW", 1)])]]
    [[("A", [("HIGH", 2), ("LOW", 1)])], [("A", [("HIGH", 1)])]]
    "A" "HIGH" ⟨by decide, by decide⟩ ⟨by decide, by decide⟩ ⟨by decide, by decide⟩
    (by intro st hst; fin_cases hst <;> exact ⟨by decide, by decide⟩)
    (List.Perm.swap _ _ [])).1

/- ------------------------------------------------------------------ -/
/- Claims C4 and C6: database preparation lemmas                       -/
/- ------------------------------------------------------------------ -/

theorem orElseStr_ne_empty (s d : String) (hd : d ≠ "") : orElseStr s d ≠ "" := by
  unfold orElseStr
  by_cases h : s = ""
  · simpa [h] using hd
  · simpa [h] using h

/-- The candidate loop either breaks with the ready flag set, a verified
artifact on disk and a logged successful check — or it leaves the state
untouched and no logged attempt passed the `rc == 0 and cache` check. -/
theorem db_candidates_loop_spec (o : Nat → ProcOut) :
    ∀ (n : Nat) (st : DBState) (w : World),
      ((db_candidates_loop o n st w).1 = ⟨true, st.java_db_ready⟩
        ∧ (db_candidates_loop o n st w).2.1.has_vuln_db = true
        ∧ ∃ p ∈ (db_candidates_loop o n st w).2.2, p.1 = 0 ∧ p.2 = true)
      ∨ ((db_candidates_loop o n st w).1 = st
        ∧ ∀ p ∈ (db_candidates_loop o n st w).2.2, ¬(p.1 = 0 ∧ p.2 = true)) := by
  intro n
  induction n with
  | zero =>
    intro st w
    right
    exact ⟨rfl, by simp [db_candidates_loop]⟩
  | succ n ih =>
    intro st w
    simp only [db_candidates_loop]
    by_cases h1 : ((run_proc_o o w).1.1 == 0 && cache_has_vuln_db (run_proc_o o w).2) = true
    · left
      simp only [h1, if_true]
      have h1' := (Bool.and_eq_true _ _).mp h1
      refine ⟨by trivial, ?_, ⟨((run_proc_o o w).1.1, cache_has_vuln_db (run_proc_o o w).2),
        List.mem_singleton_self _, beq_iff_eq.mp h1'.1, h1'.2⟩⟩
      exact h1'.2
    · simp only [h1, Bool.false_eq_true, if_false]
      have hbad1 : ¬(((run_proc_o o w).1.1, cache_has_vuln_db (run_proc_o o w).2).1 = 0
          ∧ ((run_proc_o o w).1.1, cache_has_vuln_db (run_proc_o o w).2).2 = true) := by
        intro hc
        apply h1
        rw [Bool.and_eq_true]
        exact ⟨beq_iff_eq.mpr hc.1, hc.2⟩
      by_cases h2 : (strIn "requires at least 1 arg" (lowerStr (run_proc_o o w).1.2)
          || strIn "accepts 1 arg" (lowerStr (run_proc_o o w).1.2)
          || strIn "missing argument" (lowerStr (run_proc_o o w).1.2)) = true
      · simp only [h2, if_true]
        by_cases h3 : ((run_proc_o o (run_proc_o o w).2).1.1 == 0
            && cache_has_vuln_db (run_proc_o o (run_proc_o o w).2).2) = true
        · left
          simp only [h3, if_true]
          have h3' := (Bool.and_eq_true _ _).mp h3
          refine ⟨by trivial, h3'.2, ?_⟩
          refine ⟨((run_proc_o o (run_proc_o o w).2).1.1,
            cache_has_vuln_db (run_proc_o o (run_proc_o o w).2).2), ?_,
            beq_iff_eq.mp h3'.1, h3'.2⟩
          simp
        · simp only [h3, Bool.false_eq_true, if_false]
          have hbad2 : ¬(((run_proc_o o (run_proc_o o w).2).1.1,
              cache_has_vuln_db (run_proc_o o (run_proc_o o w).2).2).1 = 0
              ∧ ((run_proc_o o (run_proc_o o w).2).1.1,
              cache_has_vuln_db (run_proc_o o (run_proc_o o w).2).2).2 = true) := by
            intro hc
            apply h3
            rw [Bool.and_eq_true]
            exact ⟨beq_iff_eq.mpr hc.1, hc.2⟩
          rcases ih st (run_proc_o o (run_proc_o o w).2).2 with hleft | hright
          · left
            refine ⟨hleft.1, hleft.2.1, ?_⟩
            obtain ⟨p, hp, hp0, hp1⟩ := hleft.2.2
            exact ⟨p, by simp [hp], hp0, hp1⟩
          · right
            refine ⟨hright.1, ?_⟩
            intro p hp
            simp only [List.mem_cons] at hp
            rcases hp with hp | hp | hp
            · rw [hp]; exact hbad1
            · rw [hp]; exact hbad2
            · exact hright.2 p hp
      · simp only [h2, Bool.false_eq_true, if_false]
        rcases ih st (run_proc_o o w).2 with hleft | hright
        · left
          refine ⟨hleft.1, hleft.2.1, ?_⟩
          obtain ⟨p, hp, hp0, hp1⟩ := hleft.2.2
          exact ⟨p, by simp [hp], hp0, hp1⟩
        · right
          refine ⟨hright.1, ?_⟩
          intro p hp
          simp only [List.mem_cons] at hp
          rcases hp with hp | hp
          · rw [hp]; exact hbad1
          · exact hright.2 p hp

/-- The java-db warmup loop never changes the primary-ready flag and never
removes an existing vulnerability database artifact. -/
theorem java_db_loop_spec (o : Nat → ProcOut) :
    ∀ (n : Nat) (st : DBState) (w : World),
      (java_db_loop o n st w).1.db_ready = st.db_ready
      ∧ (w.has_vuln_db = true → (java_db_loop o n st w).2.has_vuln_db = true) := by
  intro n
  induction n with
  | zero => intro st w; exact ⟨rfl, fun h => h⟩
  | succ n ih =>
    intro st w
    have hmono : w.has_vuln_db = true → (run_proc_o o w).2.has_vuln_db = true := by
      intro h
      simp [run_proc_o, h]
    simp only [java_db_loop]
    by_cases h1 : ((run_proc_o o w).1.1 == 0) = true
    · rw [if_pos h1]
      by_cases h2 : cache_has_java_db (run_proc_o o w).2 = true
      · rw [if_pos h2]
        exact ⟨rfl, hmono⟩
      · rw [if_neg h2]
        by_cases h3 : (strIn "unknown flag" (lowerStr (run_proc_o o w).1.2)
            && strIn "--download-java-db-only" (lowerStr (run_proc_o o w).1.2)) = true
        · rw [if_pos h3]
          exact ⟨rfl, hmono⟩
        · rw [if_neg h3]
          have hrec := ih ⟨st.db_ready, cache_has_java_db (run_proc_o o w).2⟩ (run_proc_o o w).2
          exact ⟨hrec.1, fun h => hrec.2 (hmono h)⟩
    · rw [if_neg h1]
      by_cases h3 : (strIn "unknown flag" (lowerStr (run_proc_o o w).1.2)
          && strIn "--download-java-db-only" (lowerStr (run_proc_o o w).1.2)) = true
      · rw [if_pos h3]
        exact ⟨rfl, fun h => h⟩
      · rw [if_neg h3]
        have hrec := ih st (run_proc_o o w).2
        exact ⟨hrec.1, fun h => hrec.2 (hmono h)⟩

/-- `db_finish` reports success, with the primary-ready flag, the artifact
and the attempt log carried through. -/
theorem db_finish_spec (o : Nat → ProcOut) (st : DBState) (w : World)
    (log : List (Int × Bool)) :
    (db_finish o st w log).1 = (true, "db ready")
    ∧ (db_finish o st w log).2.1.db_ready = st.db_ready
    ∧ (w.has_vuln_db = true → (db_finish o st w log).2.2.1.has_vuln_db = true)
    ∧ (db_finish o st w log).2.2.2 = log := by
  unfold db_finish
  by_cases h : cache_has_java_db w = true
  · simp only [if_pos h]
    exact ⟨by trivial, by trivial, fun hh => hh, by trivial⟩
  · simp only [if_neg h]
    have hj := java_db_loop_spec o 2 ⟨st.db_ready, cache_has_java_db w⟩ w
    exact ⟨by trivial, hj.1, hj.2, by trivial⟩
/-- C6 amended: under the flag discipline of the program (the ready flag is
clear when preparation is entered), database preparation fails exactly when
no attempted invocation shape, retry, or dummy-scan fallback exits 0 with a
verified database artifact present at its completion check; whenever it
returns success a verified artifact is present on disk; and a failure
carries a non-empty message. -/
theorem download_db_success_iff (o : Nat → ProcOut) (st : DBState) (w : World)
    (hst : st.db_ready = false) :
    ((trivy_download_db_only o st w).1.1 = true
      → (trivy_download_db_only o st w).2.2.1.has_vuln_db = true)
    ∧ ((trivy_download_db_only o st w).1.1 = false
      → (trivy_download_db_only o st w).1.2 ≠ "")
    ∧ ((trivy_download_db_only o st w).1.1 = false
        ↔ (w.has_vuln_db = false
          ∧ ∀ p ∈ (trivy_download_db_only o st w).2.2.2, ¬(p.1 = 0 ∧ p.2 = true))) := by
  simp only [trivy_download_db_only]
  by_cases hcache : cache_has_vuln_db w = true
  · simp only [if_pos hcache]
    refine ⟨fun _ => hcache, ?_, ?_⟩
    · intro hf
      exact nomatch hf
    constructor
    · intro hf
      exact nomatch hf
    · rintro ⟨h1, _⟩
      have : w.has_vuln_db = true := hcache
      rw [this] at h1
      exact nomatch h1
  · simp only [if_neg hcache]
    have hw : w.has_vuln_db = false := by
      cases hx : w.has_vuln_db with
      | false => rfl
      | true => exact absurd (show cache_has_vuln_db w = true from hx) hcache
    rcases db_candidates_loop_spec o 4 st w with hleft | hright
    · have hready : (db_candidates_loop o 4 st w).1.db_ready = true := by rw [hleft.1]
      simp only [if_pos hready]
      have hfin := db_finish_spec o (db_candidates_loop o 4 st w).1
        (db_candidates_loop o 4 st w).2.1 (db_candidates_loop o 4 st w).2.2
      refine ⟨fun _ => hfin.2.2.1 hleft.2.1, ?_, ?_⟩
      · intro hf
        rw [show (db_finish o (db_candidates_loop o 4 st w).1 (db_candidates_loop o 4 st w).2.1
          (db_candidates_loop o 4 st w).2.2).1.1 = true from by rw [hfin.1]] at hf
        exact nomatch hf
      · constructor
        · intro hf
          rw [show (db_finish o (db_candidates_loop o 4 st w).1 (db_candidates_loop o 4 st w).2.1
            (db_candidates_loop o 4 st w).2.2).1.1 = true from by rw [hfin.1]] at hf
          exact nomatch hf
        · rintro ⟨h1, hall⟩
          obtain ⟨p, hp, hp0, hp1⟩ := hleft.2.2
          rw [hfin.2.2.2] at hall
          exact absurd ⟨hp0, hp1⟩ (hall p hp)
    · have hready : ¬((db_candidates_loop o 4 st w).1.db_ready = true) := by
        rw [hright.1, hst]
        simp
      simp only [if_neg hready]
      by_cases hf : ((run_proc_o o (db_candidates_loop o 4 st w).2.1).1.1 == 0
          && cache_has_vuln_db (run_proc_o o (db_candidates_loop o 4 st w).2.1).2) = true
      · simp only [if_pos hf]
        have hf' := (Bool.and_eq_true _ _).mp hf
        have hfin := db_finish_spec o ⟨true, (db_candidates_loop o 4 st w).1.java_db_ready⟩
          (run_proc_o o (db_candidates_loop o 4 st w).2.1).2
          ((db_candidates_loop o 4 st w).2.2
            ++ [((run_proc_o o (db_candidates_loop o 4 st w).2.1).1.1,
                 cache_has_vuln_db (run_proc_o o (db_candidates_loop o 4 st w).2.1).2)])
        refine ⟨fun _ => hfin.2.2.1 hf'.2, ?_, ?_⟩
        · intro hfalse
          rw [show (db_finish o ⟨true, (db_candidates_loop o 4 st w).1.java_db_ready⟩
            (run_proc_o o (db_candidates_loop o 4 st w).2.1).2
            ((db_candidates_loop o 4 st w).2.2
              ++ [((run_proc_o o (db_candidates_loop o 4 st w).2.1).1.1,
                   cache_has_vuln_db (run_proc_o o (db_candidates_loop o 4 st w).2.1).2)])).1.1
            = true from by rw [hfin.1]] at hfalse
          exact nomatch hfalse
        constructor
        · intro hfalse
          rw [show (db_finish o ⟨true, (db_candidates_loop o 4 st w).1.java_db_ready⟩
            (run_proc_o o (db_candidates_loop o 4 st w).2.1).2
            ((db_candidates_loop o 4 st w).2.2
              ++ [((run_proc_o o (db_candidates_loop o 4 st w).2.1).1.1,
                   cache_has_vuln_db (run_proc_o o (db_candidates_loop o 4 st w).2.1).2)])).1.1
            = true from by rw [hfin.1]] at hfalse
          exact nomatch hfalse
        · rintro ⟨h1, hall⟩
          rw [hfin.2.2.2] at hall
          have hmem : ((run_proc_o o (db_candidates_loop o 4 st w).2.1).1.1,
              cache_has_vuln_db (run_proc_o o (db_candidates_loop o 4 st w).2.1).2)
              ∈ (db_candidates_loop o 4 st w).2.2
                ++ [((run_proc_o o (db_candidates_loop o 4 st w).2.1).1.1,
                     cache_has_vuln_db (run_proc_o o (db_candidates_loop o 4 st w).2.1).2)] := by
            simp
          exact absurd ⟨beq_iff_eq.mp hf'.1, hf'.2⟩ (hall _ hmem)
      · simp only [if_neg hf]
        refine ⟨?_, ?_, ?_⟩
        · intro h
          exact nomatch h
        · intro _
          exact orElseStr_ne_empty _ _ (by decide)
        constructor
        · intro _
          refine ⟨hw, ?_⟩
          intro p hp
          simp only [List.mem_append, List.mem_singleton] at hp
          rcases hp with hp | hp
          · exact hright.2 p hp
          · rw [hp]
            intro hc
            apply hf
            rw [Bool.and_eq_true]
            exact ⟨beq_iff_eq.mpr hc.1, hc.2⟩
        · intro _
          trivial

/-- C6 counterexample to the claim as stated: an oracle under which the very
first "download database only" invocation shape downloads the database (the
artifact is verified on disk afterwards) but exits non-zero, and every later
attempt also fails: preparation reports failure even though an attempted
invocation shape left a verified database artifact on disk. -/
theorem download_db_fails_despite_artifact :
    (trivy_download_db_only (fun _ => ⟨1, "boom", true, false⟩)
        ⟨false, false⟩ ⟨false, false, 0, 0⟩).1.1 = false
    ∧ (trivy_download_db_only (fun _ => ⟨1, "boom", true, false⟩)
        ⟨false, false⟩ ⟨false, false, 0, 0⟩).2.2.1.has_vuln_db = true :=
  ⟨by decide, by decide⟩

theorem download_db_success_iff_witness :
    ((trivy_download_db_only (fun _ => ⟨0, "", true, false⟩)
        ⟨false, false⟩ ⟨false, false, 0, 0⟩).1.1 = true
      → (trivy_download_db_only (fun _ => ⟨0, "", true, false⟩)
        ⟨false, false⟩ ⟨false, false, 0, 0⟩).2.2.1.has_vuln_db = true)
    ∧ ((trivy_download_db_only (fun _ => ⟨0, "", true, false⟩)
        ⟨false, false⟩ ⟨false, false, 0, 0⟩).1.1 = false
      → (trivy_download_db_only (fun _ => ⟨0, "", true, false⟩)
        ⟨false, false⟩ ⟨false, false, 0, 0⟩).1.2 ≠ "")
    ∧ ((trivy_download_db_only (fun _ => ⟨0, "", true, false⟩)
        ⟨false, false⟩ ⟨false, false, 0, 0⟩).1.1 = false
        ↔ ((⟨false, false, 0, 0⟩ : World).has_vuln_db = false
          ∧ ∀ p ∈ (trivy_download_db_only (fun _ => ⟨0, "", true, false⟩)
              ⟨false, false⟩ ⟨false, false, 0, 0⟩).2.2.2, ¬(p.1 = 0 ∧ p.2 = true))) :=
  download_db_success_iff (fun _ => ⟨0, "", true, false⟩) ⟨false, false⟩
    ⟨false, false, 0, 0⟩ (by decide)

/-- Whenever `_trivy_download_db_only` reports success, the in-memory ready
flag is set afterwards. -/
theorem download_db_sets_ready (o : Nat → ProcOut) (st : DBState) (w : World) :
    (trivy_download_db_only o st w).1.1 = true
    → (trivy_download_db_only o st w).2.1.db_ready = true := by
  simp only [trivy_download_db_only]
  by_cases hcache : cache_has_vuln_db w = true
  · simp only [if_pos hcache]
    intro _
    trivial
  · simp only [if_neg hcache]
    by_cases hready : (db_candidates_loop o 4 st w).1.db_ready = true
    · simp only [if_pos hready]
      have hfin := db_finish_spec o (db_candidates_loop o 4 st w).1
        (db_candidates_loop o 4 st w).2.1 (db_candidates_loop o 4 st w).2.2
      intro _
      rw [hfin.2.1]
      exact hready
    · simp only [if_neg hready]
      by_cases hf : ((run_proc_o o (db_candidates_loop o 4 st w).2.1).1.1 == 0
          && cache_has_vuln_db (run_proc_o o (db_candidates_loop o 4 st w).2.1).2) = true
      · simp only [if_pos hf]
        have hfin := db_finish_spec o ⟨true, (db_candidates_loop o 4 st w).1.java_db_ready⟩
          (run_proc_o o (db_candidates_loop o 4 st w).2.1).2
          ((db_candidates_loop o 4 st w).2.2
            ++ [((run_proc_o o (db_candidates_loop o 4 st w).2.1).1.1,
                 cache_has_vuln_db (run_proc_o o (db_candidates_loop o 4 st w).2.1).2)])
        intro _
        rw [hfin.2.1]
      · simp only [if_neg hf]
        intro h
        exact nomatch h

/-- Whenever `ensure_trivy_databases` reports success, the ready flag is set
in the state it leaves behind. -/
theorem ensure_success_ready (o : Nat → ProcOut) (st : DBState) (w : World) :
    (ensure_trivy_databases o st w).1.1 = true
    → (ensure_trivy_databases o st w).2.1.db_ready = true := by
  simp only [ensure_trivy_databases]
  by_cases hfast : (st.db_ready && cache_has_vuln_db w) = true
  · simp only [if_pos hfast]
    intro _
    exact ((Bool.and_eq_true _ _).mp hfast).1
  · simp only [if_neg hfast]
    exact download_db_sets_ready o st ⟨w.has_vuln_db, w.has_java_db, w.clock, w.lock_acq + 1⟩

/-- C4: when a call to `ensure_trivy_databases` returns success — leaving the
ready flag set — and the verified database artifact is on disk, an
immediately following call takes the fast path: it returns success with the
message "db already ready", performs no preparation work, and leaves the
world untouched — in particular it spawns no external process and acquires
no file lock. -/
theorem ensure_trivy_databases_idempotent (o : Nat → ProcOut) (st : DBState) (w : World)
    (m : String) (st1 : DBState) (w1 : World)
    (h1 : ensure_trivy_databases o st w = ((true, m), st1, w1))
    (h2 : cache_has_vuln_db w1 = true) :
    st1.db_ready = true
    ∧ ensure_trivy_databases o st1 w1
        = ((true, "db already ready"), ⟨st1.db_ready, cache_has_java_db w1⟩, w1)
    ∧ (ensure_trivy_databases o st1 w1).2.2.clock = w1.clock
    ∧ (ensure_trivy_databases o st1 w1).2.2.lock_acq = w1.lock_acq := by
  have hready : st1.db_ready = true := by
    have hs := ensure_success_ready o st w (by rw [h1])
    rw [h1] at hs
    exact hs
  have hfast : (st1.db_ready && cache_has_vuln_db w1) = true := by
    rw [hready, h2]
    rfl
  have hsecond : ensure_trivy_databases o st1 w1
      = ((true, "db already ready"), ⟨st1.db_ready, cache_has_java_db w1⟩, w1) := by
    simp only [ensure_trivy_databases, if_pos hfast]
  refine ⟨hready, hsecond, ?_, ?_⟩ <;> rw [hsecond]

theorem ensure_trivy_databases_idempotent_witness :
    (⟨true, false⟩ : DBState).db_ready = true
    ∧ ensure_trivy_databases (fun _ => ⟨0, "", true, false⟩) ⟨true, false⟩ ⟨true, false, 3, 1⟩
        = ((true, "db already ready"),
           ⟨(⟨true, false⟩ : DBState).db_ready, cache_has_java_db ⟨true, false, 3, 1⟩⟩,
           ⟨true, false, 3, 1⟩)
    ∧ (ensure_trivy_databases (fun _ => ⟨0, "", true, false⟩) ⟨true, false⟩
        ⟨true, false, 3, 1⟩).2.2.clock = (⟨true, false, 3, 1⟩ : World).clock
    ∧ (ensure_trivy_databases (fun _ => ⟨0, "", true, false⟩) ⟨true, false⟩
        ⟨true, false, 3, 1⟩).2.2.lock_acq = (⟨true, false, 3, 1⟩ : World).lock_acq :=
  ensure_trivy_databases_idempotent (fun _ => ⟨0, "", true, false⟩) ⟨false, false⟩
    ⟨false, false, 0, 0⟩ "db ready" ⟨true, false⟩ ⟨true, false, 3, 1⟩ (by decide) (by decide)
